import Mathlib

/-! # beacon-kit: validator registry, payload admission, domains and roots

A shallow embedding of five source files of beacon-kit, followed by the
properties the specification states about them:

* `mod/primitives/validator.go`: the `Validator` record, its constructor
  `NewValidatorFromDeposit` and the lifecycle predicates (`IsActive`,
  `IsSlashable`, `IsEligibleForActivation`, ...);
* `mod/core/payload_validator.go`: `PayloadValidator.ValidatePayload`;
* `mod/consensus-types/pkg/types/fork_data.go`: `ForkData.ComputeDomain` and
  `ForkData.ComputeRandaoSigningRoot`;
* `mod/beacon/validator/state.go`: `computeStateRoot` and
  `computeAndSetStateRoot`;
* `light/mod/storage/beacondb/withdrawals.go`: the accessors of the light
  store.

Conventions of the embedding:

* Go's `uint64` (`Gwei`, `Epoch`, `Slot`) is a natural number below `2 ^ 64`;
  the bound is a hypothesis (`IsU64`) where a theorem needs it, and the only
  arithmetic that could wrap, the subtraction in `NewValidatorFromDeposit`,
  is written with its explicit reduction modulo `2 ^ 64` (`u64Sub`).
* Go's fixed-size byte arrays `[n]byte` are functions `Fin n → Byte`, so
  that indexing is total, as it is in Go for a constant in-range index; byte
  slices are lists.
* A Go run-time panic is an `Except.error` carrying a `RuntimePanic`.
* Interfaces and generated code declared outside the translated files are
  records of accessor results or function parameters.
* Code that mutates its arguments returns the values it leaves behind.
-/

namespace BeaconKit

/-! ## Machine integers and byte arrays -/

/-- The modulus of Go's `uint64` arithmetic. -/
def U64_MODULUS : Nat := 2 ^ 64

/-- A natural number is a value of Go's `uint64`. -/
def IsU64 (n : Nat) : Prop := n < U64_MODULUS

instance (n : Nat) : Decidable (IsU64 n) := by
  unfold IsU64; infer_instance

/-- Go's `a - b` on `uint64`: subtraction modulo `2 ^ 64`. -/
def u64Sub (a b : Nat) : Nat := (a + U64_MODULUS - b) % U64_MODULUS

/-- One byte. -/
abbrev Byte := Fin 256

/-- The type `Gwei` of the source, a `uint64`. -/
abbrev Gwei := Nat

/-- The type `Epoch` of the source, a `uint64`. -/
abbrev Epoch := Nat

/-- The type `BLSPubkey` of the source, `[48]byte`. -/
abbrev BLSPubkey := Fin 48 → Byte

/-- The type `WithdrawalCredentials` of the source, `[32]byte`. -/
abbrev WithdrawalCredentials := Fin 32 → Byte

/-- The run-time panics the embedded code can raise. -/
inductive RuntimePanic where
  /-- Go's "integer divide by zero", raised by `/` and `%` on a zero divisor. -/
  | integerDivideByZero
  /-- Go's panic on converting a slice to an array longer than the slice. -/
  | sliceToArrayLength
  /-- The panic `panic(writesNotSupported)` of the light store; the value
  `writesNotSupported` is declared outside the translated files. -/
  | writesNotSupported
  deriving DecidableEq, Repr

/-! ## Constants declared outside the translated file -/

/-- Modelled from the spec: `constants.FarFutureEpoch`, whose declaration is
not among the sources. The specification calls it the reserved far-future
sentinel, "the maximum representable epoch value", that is `2 ^ 64 - 1`. -/
def FarFutureEpoch : Nat := 2 ^ 64 - 1

/-- Modelled from the spec: `EthSecp256k1CredentialPrefix`, whose declaration
is not among the sources. The specification only names it (the reserved
"secp256k1/eth1" prefix constant) and the tests tell it apart from `0x00`; the
numeral `0x01` is the one of the Ethereum consensus specification. The
theorems below are stated about the constant by name. -/
def EthSecp256k1CredentialPrefix : Byte := 0x01

/-! ## The validator record -/

/-- The struct `Validator` of `validator.go`. -/
structure Validator where
  /-- The validator's 48-byte BLS public key. -/
  Pubkey : BLSPubkey
  /-- The address that controls the validator. -/
  WithdrawalCredentials : WithdrawalCredentials
  /-- The validator's current effective balance in gwei. -/
  EffectiveBalance : Gwei
  /-- Whether the validator has been slashed. -/
  Slashed : Bool
  /-- The epoch in which the validator became eligible for activation. -/
  ActivationEligibilityEpoch : Epoch
  /-- The epoch in which the validator activated. -/
  ActivationEpoch : Epoch
  /-- The epoch in which the validator exited. -/
  ExitEpoch : Epoch
  /-- The epoch in which the validator can withdraw. -/
  WithdrawableEpoch : Epoch

/-- Every numeric field of the validator is a `uint64`. -/
def Validator.WellFormed (v : Validator) : Prop :=
  IsU64 v.EffectiveBalance ∧ IsU64 v.ActivationEligibilityEpoch ∧
    IsU64 v.ActivationEpoch ∧ IsU64 v.ExitEpoch ∧ IsU64 v.WithdrawableEpoch

/-- The function `NewValidatorFromDeposit` of `validator.go`. The operand
`amount % effectiveBalanceIncrement` panics in Go when the increment is zero;
the subtraction is the `uint64` one and `min` is Go's builtin. -/
def NewValidatorFromDeposit (pubkey : BLSPubkey)
    (withdrawalCredentials : WithdrawalCredentials)
    (amount effectiveBalanceIncrement maxEffectiveBalance : Gwei) :
    Except RuntimePanic Validator :=
  if effectiveBalanceIncrement = 0 then
    .error .integerDivideByZero
  else
    .ok
      { Pubkey := pubkey
        WithdrawalCredentials := withdrawalCredentials
        EffectiveBalance :=
          min (u64Sub amount (amount % effectiveBalanceIncrement))
            maxEffectiveBalance
        Slashed := false
        ActivationEligibilityEpoch := FarFutureEpoch
        ActivationEpoch := FarFutureEpoch
        ExitEpoch := FarFutureEpoch
        WithdrawableEpoch := FarFutureEpoch }

/-- The method `GetPubkey`. -/
def Validator.GetPubkey (v : Validator) : BLSPubkey := v.Pubkey

/-- The method `GetEffectiveBalance`. -/
def Validator.GetEffectiveBalance (v : Validator) : Gwei := v.EffectiveBalance

/-- The method `IsActive`. -/
def Validator.IsActive (v : Validator) (epoch : Epoch) : Bool :=
  decide (v.ActivationEpoch ≤ epoch) && decide (epoch < v.ExitEpoch)

/-- The method `IsEligibleForActivation`. -/
def Validator.IsEligibleForActivation (v : Validator)
    (finalizedEpoch : Epoch) : Bool :=
  decide (v.ActivationEligibilityEpoch ≤ finalizedEpoch) &&
    decide (v.ActivationEpoch = FarFutureEpoch)

/-- The method `IsEligibleForActivationQueue`. -/
def Validator.IsEligibleForActivationQueue (v : Validator)
    (maxEffectiveBalance : Gwei) : Bool :=
  decide (v.ActivationEligibilityEpoch = FarFutureEpoch) &&
    decide (v.EffectiveBalance = maxEffectiveBalance)

/-- The method `IsSlashable`. -/
def Validator.IsSlashable (v : Validator) (epoch : Epoch) : Bool :=
  !v.Slashed && decide (v.ActivationEpoch ≤ epoch) &&
    decide (epoch < v.WithdrawableEpoch)

/-- The method `HasEth1WithdrawalCredentials`. -/
def Validator.HasEth1WithdrawalCredentials (v : Validator) : Bool :=
  decide (v.WithdrawalCredentials 0 = EthSecp256k1CredentialPrefix)

/-- The method `HasMaxEffectiveBalance`. -/
def Validator.HasMaxEffectiveBalance (v : Validator)
    (maxEffectiveBalance : Gwei) : Bool :=
  decide (v.EffectiveBalance = maxEffectiveBalance)

/-- The method `IsFullyWithdrawable`. -/
def Validator.IsFullyWithdrawable (v : Validator) (balance : Gwei)
    (epoch : Epoch) : Bool :=
  v.HasEth1WithdrawalCredentials && decide (v.WithdrawableEpoch ≤ epoch) &&
    decide (balance > 0)

/-- The method `IsPartiallyWithdrawable`. -/
def Validator.IsPartiallyWithdrawable (v : Validator)
    (balance maxEffectiveBalance : Gwei) : Bool :=
  let hasExcessBalance := decide (balance > maxEffectiveBalance)
  v.HasEth1WithdrawalCredentials &&
    v.HasMaxEffectiveBalance maxEffectiveBalance && hasExcessBalance

/-! ## Sample values used by the concrete instances below -/

/-- The public key `[48]byte{0x01}`. -/
def samplePubkey : BLSPubkey := fun i => if i = 0 then 0x01 else 0x00

/-- Credentials whose byte 0 is the eth1 prefix and whose byte 12 is `0x01`,
the shape `NewCredentialsFromExecutionAddress` gives to the address `{0x01}`. -/
def sampleEth1Credentials : WithdrawalCredentials :=
  fun i => if i = 0 then EthSecp256k1CredentialPrefix
    else if i = 12 then 0x01 else 0x00

/-- The credentials `WithdrawalCredentials{0x00}`: all bytes zero. -/
def sampleZeroCredentials : WithdrawalCredentials := fun _ => 0x00

/-- A validator to vary, with every field given. -/
def sampleValidator : Validator :=
  { Pubkey := samplePubkey
    WithdrawalCredentials := sampleEth1Credentials
    EffectiveBalance := 32000000000
    Slashed := false
    ActivationEligibilityEpoch := 3
    ActivationEpoch := 5
    ExitEpoch := 15
    WithdrawableEpoch := 20 }

/-- A validator that shares byte 0 of its credentials with `sampleValidator`
and differs from it in the other credential bytes and in every other field. -/
def sampleOtherValidator : Validator :=
  { Pubkey := fun _ => 0x07
    WithdrawalCredentials :=
      fun i => if i = 0 then EthSecp256k1CredentialPrefix else 0xff
    EffectiveBalance := 17
    Slashed := true
    ActivationEligibilityEpoch := FarFutureEpoch
    ActivationEpoch := FarFutureEpoch
    ExitEpoch := 0
    WithdrawableEpoch := 1 }

/-- The sample validator with the all-zero credentials `{0x00}`. -/
def sampleNonEth1Validator : Validator :=
  { sampleValidator with
    WithdrawalCredentials := sampleZeroCredentials
    WithdrawableEpoch := 5 }

/-! ## Payload admission: `mod/core/payload_validator.go`

The interfaces `state.BeaconState`, `types.BeaconBlockBody` and
`enginetypes.ExecutionPayload` and the configuration `params.BeaconChainConfig`
are declared outside the translated files. They enter the embedding as records
of the accessors `ValidatePayload` calls: an accessor that returns
`(value, error)` is an `Except GoError value`, and an interface value that may
be `nil` is an `Option`. -/

/-- The type `common.Hash`, `[32]byte`. -/
abbrev Hash := Fin 32 → Byte

/-- The 32-byte value of a randao mix and of `GetPrevRandao`. -/
abbrev Bytes32 := Fin 32 → Byte

/-- The type `Slot` of the source, a `uint64`. -/
abbrev Slot := Nat

/-- A KZG commitment, `[48]byte`; only the number of commitments is used. -/
abbrev KZGCommitment := Fin 48 → Byte

/-- An `error` value handed back by a collaborator. -/
structure GoError where
  /-- The text of the error. -/
  msg : String
  deriving DecidableEq, Repr

/-- The struct `Withdrawal` of the engine primitives, with the fields its test
sets; only the number of withdrawals is used by `ValidatePayload`. -/
structure Withdrawal where
  /-- The global index of the withdrawal. -/
  Index : Nat
  /-- The index of the validator withdrawn from. -/
  Validator : Nat
  /-- The execution address paid. -/
  Address : Fin 20 → Byte
  /-- The amount in gwei. -/
  Amount : Gwei

/-- A non-nil value of the interface `enginetypes.ExecutionPayload`, given by
the results of the accessors `ValidatePayload` calls on it. -/
structure ExecutionPayload where
  /-- The result of `IsNil()`. -/
  IsNil : Bool
  /-- The result of `GetParentHash()`. -/
  GetParentHash : Hash
  /-- The result of `GetPrevRandao()`. -/
  GetPrevRandao : Bytes32
  /-- The result of `GetBlockHash()`. -/
  GetBlockHash : Hash
  /-- The result of `GetWithdrawals()`. -/
  GetWithdrawals : List Withdrawal

/-- A non-nil value of the interface `types.BeaconBlockBody`; the execution
payload it returns is an interface value and may be `nil` (`none`). -/
structure BeaconBlockBody where
  /-- The result of `IsNil()`. -/
  IsNil : Bool
  /-- The result of `GetExecutionPayload()`. -/
  GetExecutionPayload : Option ExecutionPayload
  /-- The result of `GetBlobKzgCommitments()`. -/
  GetBlobKzgCommitments : List KZGCommitment

/-- The read accessors of `state.BeaconState` that `ValidatePayload` calls. A
read that succeeds on the latest execution payload yields a payload on which
`GetBlockHash` is defined. -/
structure BeaconState where
  /-- The accessor `GetSlot()`. -/
  GetSlot : Except GoError Slot
  /-- The accessor `GetEth1BlockHash()`. -/
  GetEth1BlockHash : Except GoError Hash
  /-- The accessor `GetLatestExecutionPayload()`. -/
  GetLatestExecutionPayload : Except GoError ExecutionPayload
  /-- The accessor `GetRandaoMixAtIndex(index)`. -/
  GetRandaoMixAtIndex : Nat → Except GoError Bytes32

/-- The members of `params.BeaconChainConfig` that `ValidatePayload` uses. The
method `SlotToEpoch` is declared outside the translated files and is taken as
given. -/
structure BeaconChainConfig where
  /-- The method `SlotToEpoch(slot)`. -/
  SlotToEpoch : Slot → Epoch
  /-- The field `EpochsPerHistoricalVector`, a `uint64`. -/
  EpochsPerHistoricalVector : Nat
  /-- The field `MaxBlobsPerBlock`, a `uint64`. -/
  MaxBlobsPerBlock : Nat
  /-- The field `MaxWithdrawalsPerPayload`, a `uint64`. -/
  MaxWithdrawalsPerPayload : Nat

/-- The struct `PayloadValidator`. -/
structure PayloadValidator where
  /-- The chain configuration. -/
  cfg : BeaconChainConfig

/-- The function `NewPayloadValidator`. -/
def NewPayloadValidator (cfg : BeaconChainConfig) : PayloadValidator :=
  { cfg := cfg }

/-- The `error` values `ValidatePayload` can return. The two sentinels
`types.ErrNilBlkBody` and `types.ErrNilPayload` are declared outside the
translated files; each `fmt.Errorf` of the function is a constructor that
carries the arguments of its format string, in their order. -/
inductive ValidateError where
  /-- The sentinel `types.ErrNilBlkBody`. -/
  | ErrNilBlkBody
  /-- The sentinel `types.ErrNilPayload`. -/
  | ErrNilPayload
  /-- An error of a state read, returned unchanged. -/
  | stateRead (err : GoError)
  /-- The error "parent block with hash %x is not finalized, expected
  finalized hash %x". -/
  | parentNotFinalized (parentHash safeHash : Hash)
  /-- The error "prev randao does not match, expected: %x, got: %x". -/
  | prevRandaoMismatch (expectedMix prevRandao : Bytes32)
  /-- The error "too many blob kzg commitments, expected: %d, got: %d". -/
  | tooManyBlobKzgCommitments (expected got : Nat)
  /-- The error "too many withdrawals, expected: %d, got: %d". -/
  | tooManyWithdrawals (expected got : Nat)

/-- Go's `a % b` on `uint64`, which panics on a zero divisor. -/
def u64Mod (a b : Nat) : Except RuntimePanic Nat :=
  if b = 0 then .error .integerDivideByZero else .ok (a % b)

/-- The "handle genesis case" block of `ValidatePayload`: the safe hash is the
eth1 block hash of the state when `slot <= 1`, and the block hash of the
latest execution payload of the state otherwise. -/
def safeHashOf (st : BeaconState) (slot : Slot) : Except GoError Hash :=
  if slot ≤ 1 then
    st.GetEth1BlockHash
  else
    match st.GetLatestExecutionPayload with
    | .error err => .error err
    | .ok executionPayload => .ok executionPayload.GetBlockHash

/-- The method `ValidatePayload`. The result `.ok none` is the return of a
`nil` error, `.ok (some e)` the return of the error `e`, and `.error p` a
panic. The body argument is an interface value: `none` is `body == nil`. -/
def PayloadValidator.ValidatePayload (pv : PayloadValidator)
    (st : BeaconState) (body : Option BeaconBlockBody) :
    Except RuntimePanic (Option ValidateError) :=
  match body with
  | none => .ok (some .ErrNilBlkBody)
  | some body =>
    if body.IsNil then .ok (some .ErrNilBlkBody)
    else
      match body.GetExecutionPayload with
      | none => .ok (some .ErrNilPayload)
      | some payload =>
        if payload.IsNil then .ok (some .ErrNilPayload)
        else
          match st.GetSlot with
          | .error err => .ok (some (.stateRead err))
          | .ok slot =>
            match safeHashOf st slot with
            | .error err => .ok (some (.stateRead err))
            | .ok safeHash =>
              if safeHash ≠ payload.GetParentHash then
                .ok (some
                  (.parentNotFinalized payload.GetParentHash safeHash))
              else
                match u64Mod (pv.cfg.SlotToEpoch slot)
                    pv.cfg.EpochsPerHistoricalVector with
                | .error p => .error p
                | .ok index =>
                  match st.GetRandaoMixAtIndex index with
                  | .error err => .ok (some (.stateRead err))
                  | .ok expectedMix =>
                    if payload.GetPrevRandao ≠ expectedMix then
                      .ok (some
                        (.prevRandaoMismatch expectedMix
                          payload.GetPrevRandao))
                    else if body.GetBlobKzgCommitments.length >
                        pv.cfg.MaxBlobsPerBlock then
                      .ok (some
                        (.tooManyBlobKzgCommitments pv.cfg.MaxBlobsPerBlock
                          body.GetBlobKzgCommitments.length))
                    else if payload.GetWithdrawals.length >
                        pv.cfg.MaxWithdrawalsPerPayload then
                      .ok (some
                        (.tooManyWithdrawals pv.cfg.MaxWithdrawalsPerPayload
                          payload.GetWithdrawals.length))
                    else .ok none

/-! ## Fork data and domains: `mod/consensus-types/pkg/types/fork_data.go` -/

/-- The type `common.Version`, `[4]byte`. -/
abbrev Version := Fin 4 → Byte

/-- The type `common.Root`, `[32]byte`. -/
abbrev Root := Fin 32 → Byte

/-- The type `common.DomainType`, `[4]byte`. -/
abbrev DomainType := Fin 4 → Byte

/-- The type `common.Domain`, `[32]byte`. -/
abbrev Domain := Fin 32 → Byte

/-- The zero value of a byte array, as in `common.Domain{}`. -/
def zeroBytes (n : Nat) : Fin n → Byte := fun _ => 0

/-- The slice `a[:]` of a byte array. -/
def sliceOf {n : Nat} (a : Fin n → Byte) : List Byte := List.ofFn a

/-- Go's conversion of a slice to the array type `[n]byte`: the first `n`
elements, and a panic when the slice is shorter than `n`. -/
def sliceToArray (n : Nat) (s : List Byte) :
    Except RuntimePanic (Fin n → Byte) :=
  if h : n ≤ s.length then
    .ok (fun i => s.get ⟨i.val, Nat.lt_of_lt_of_le i.isLt h⟩)
  else
    .error .sliceToArrayLength

/-- The struct `ForkData`. -/
structure ForkData where
  /-- The current version of the fork. -/
  CurrentVersion : Version
  /-- The root of the genesis validators. -/
  GenesisValidatorsRoot : Root

/-- The function `NewForkData`. -/
def NewForkData (currentVersion : Version) (genesisValidatorsRoot : Root) :
    ForkData :=
  { CurrentVersion := currentVersion
    GenesisValidatorsRoot := genesisValidatorsRoot }

/-- The method `ForkData.New`. -/
def ForkData.New (_fd : ForkData) (currentVersion : Version)
    (genesisValidatorsRoot : Root) : ForkData :=
  NewForkData currentVersion genesisValidatorsRoot

/-- The method `ComputeDomain`. The method `HashTreeRoot` of `ForkData` is
generated code outside the translated files and is taken as the parameter
`HashTreeRoot`. The result is Go's pair `(common.Domain, error)`, with `none`
for a `nil` error; `append(domainType[:], forkDataRoot[:28]...)` is the list
append and the conversion to `common.Domain` is `sliceToArray 32`. -/
def ForkData.ComputeDomain (HashTreeRoot : ForkData → Except GoError Root)
    (fd : ForkData) (domainType : DomainType) :
    Except RuntimePanic (Domain × Option GoError) :=
  match HashTreeRoot fd with
  | .error err => .ok (zeroBytes 32, some err)
  | .ok forkDataRoot =>
    match sliceToArray 32
        (sliceOf domainType ++ (sliceOf forkDataRoot).take 28) with
    | .error p => .error p
    | .ok domain => .ok (domain, none)

/-- The call `errors.Newf(text + ": %w", err)`: the error `err` wrapped
behind a text. -/
def wrapError (text : String) (err : GoError) : GoError :=
  ⟨text ++ ": " ++ err.msg⟩

/-- The method `ComputeRandaoSigningRoot`. The primitive
`ssz.ComputeSigningRootUInt64` is declared outside the translated files and is
taken as the parameter `ComputeSigningRootUInt64`; `uint64(epoch)` is the
epoch itself. The result is Go's pair `(common.Root, error)`. -/
def ForkData.ComputeRandaoSigningRoot
    (HashTreeRoot : ForkData → Except GoError Root)
    (ComputeSigningRootUInt64 : Nat → Domain → Except GoError Root)
    (fd : ForkData) (domainType : DomainType) (epoch : Epoch) :
    Except RuntimePanic (Root × Option GoError) :=
  match fd.ComputeDomain HashTreeRoot domainType with
  | .error p => .error p
  | .ok (_, some err) => .ok (zeroBytes 32, some err)
  | .ok (signingDomain, none) =>
    match ComputeSigningRootUInt64 epoch signingDomain with
    | .error err =>
      .ok (zeroBytes 32, some (wrapError "failed to compute signing root" err))
    | .ok signingRoot => .ok (signingRoot, none)

/-! ## State root of an outgoing block: `mod/beacon/validator/state.go`

The service is generic in the types of the state and of the block. The state
is the type parameter `σ`; the state processor and the hashing of the state
are declared outside the translated files and enter as the two members of
`Service`. The state is mutable in Go, so every function returns the state it
leaves behind. The metrics call of `computeStateRoot`, which measures elapsed
time, has no counterpart here. -/

/-- The struct `transition.Context`, without its embedded `context.Context`. -/
structure TransitionContext where
  /-- The field `OptimisticEngine`. -/
  OptimisticEngine : Bool
  /-- The field `SkipPayloadVerification`. -/
  SkipPayloadVerification : Bool
  /-- The field `SkipValidateResult`. -/
  SkipValidateResult : Bool
  /-- The field `SkipValidateRandao`. -/
  SkipValidateRandao : Bool
  deriving DecidableEq, Repr

/-- Modelled from the spec: the block type is a type parameter of the service
and its methods are declared outside the translated files. The specification
speaks of "the block's state-root field", which `SetStateRoot` writes; the
block is a record with that field, its slot and its body. -/
structure BeaconBlock where
  /-- The slot of the block. -/
  Slot : Slot
  /-- The state-root field of the block. -/
  StateRoot : Root
  /-- The body of the block. -/
  Body : Option BeaconBlockBody

/-- The method `GetSlot` of a block. -/
def BeaconBlock.GetSlot (blk : BeaconBlock) : BeaconKit.Slot := blk.Slot

/-- The method `SetStateRoot` of a block: it writes the state-root field. -/
def BeaconBlock.SetStateRoot (blk : BeaconBlock) (stateRoot : Root) :
    BeaconBlock :=
  { blk with StateRoot := stateRoot }

/-- The collaborators of `Service` that the two functions use. -/
structure Service (σ : Type) where
  /-- The call `s.stateProcessor.Transition(ctx, st, blk)`: the state it
  leaves behind and its error; the validator updates it also returns are
  discarded by the caller. The transition reads the block. -/
  Transition : TransitionContext → σ → BeaconBlock → σ × Option GoError
  /-- The call `st.HashTreeRoot()`, Go's pair `([32]byte, error)`. -/
  HashTreeRoot : σ → Root × Option GoError

/-- A line written to `s.logger`. -/
inductive LogEntry where
  /-- A call of `s.logger.Info` with its message, the slot and, when given,
  the state root. -/
  | info (msg : String) (slot : Slot) (stateRoot : Option Root)
  /-- A call of `s.logger.Error` with its message, the slot and the error. -/
  | error (msg : String) (slot : Slot) (err : GoError)

/-- The `transition.Context` literal that `computeStateRoot` passes. -/
def stateRootContext : TransitionContext :=
  { OptimisticEngine := true
    SkipPayloadVerification := true
    SkipValidateResult := true
    SkipValidateRandao := true }

/-- The method `computeStateRoot`: the state left behind, and Go's pair
`(primitives.Root, error)`. -/
def Service.computeStateRoot {σ : Type} (s : Service σ) (st : σ)
    (blk : BeaconBlock) : σ × (Root × Option GoError) :=
  match s.Transition stateRootContext st blk with
  | (st', some err) => (st', (zeroBytes 32, some err))
  | (st', none) => (st', s.HashTreeRoot st')

/-- What `computeAndSetStateRoot` leaves behind: the state, the block, the
lines logged and the returned error (`none` for `nil`). -/
structure StateRootOutcome (σ : Type) where
  /-- The state afterwards. -/
  st : σ
  /-- The block afterwards. -/
  blk : BeaconBlock
  /-- The lines logged, in order. -/
  logs : List LogEntry
  /-- The returned error. -/
  err : Option GoError

/-- The method `computeAndSetStateRoot`. -/
def Service.computeAndSetStateRoot {σ : Type} (s : Service σ) (st : σ)
    (blk : BeaconBlock) : StateRootOutcome σ :=
  let started := LogEntry.info "computing state root for block 🌲"
    blk.GetSlot none
  match s.computeStateRoot st blk with
  | (st', (_, some err)) =>
    { st := st'
      blk := blk
      logs :=
        [started,
          .error "failed to compute state root while building block ❗️ "
            blk.GetSlot err]
      err := some err }
  | (st', (stateRoot, none)) =>
    { st := st'
      blk := blk.SetStateRoot stateRoot
      logs :=
        [started,
          .info "state root computed for block 💻 " blk.GetSlot
            (some stateRoot)]
      err := none }

/-! ## The light store: `light/mod/storage/beacondb/withdrawals.go`

Every method returns the store it leaves behind together with its outcome, so
that a panic, which in Go unwinds without having written anything, shows the
store it leaves. -/

/-- Modelled from the spec: the struct `primitives.Deposit`, declared outside
the translated files. The specification lists its fields: public key,
withdrawal credentials, amount and a globally increasing index (the inclusion
proof is opaque and omitted). -/
structure Deposit where
  /-- The public key of the depositor. -/
  Pubkey : BLSPubkey
  /-- The withdrawal credentials. -/
  Credentials : WithdrawalCredentials
  /-- The amount in gwei. -/
  Amount : Gwei
  /-- The index of the deposit. -/
  Index : Nat

/-- Modelled from the spec: the deposit queue of the store, whose
implementation is not among the sources. The specification describes it as a
FIFO sequence of pending deposits, oldest first. -/
structure DepositQueue where
  /-- The pending deposits, oldest first. -/
  pending : List Deposit

/-- Modelled from the spec: the method `PeekMulti` of the deposit queue, whose
implementation is not among the sources. The specification says of the peek:
"returns up to n oldest pending deposits without removing them", a finite
sequence "bounded by current queue length". The result is the queue it leaves
and Go's pair `([]*Deposit, error)`. -/
def DepositQueue.PeekMulti (q : DepositQueue) (n : Nat) :
    DepositQueue × (List Deposit × Option GoError) :=
  (q, (q.pending.take n, none))

/-- The query interface of the provider of the light store:
`Query(ctx, storeKey, key, height)`, declared outside the translated files. -/
structure Provider where
  /-- The method `Query`. -/
  Query : String → List Byte → Nat → Except GoError (List Byte)

/-- A stored item: its key and its decoder, declared outside the translated
files. -/
structure Item where
  /-- The method `Key()`. -/
  Key : List Byte
  /-- The method `Decode(bytes)`. -/
  Decode : List Byte → Except GoError Nat

/-- The struct `KVStore` of the light store, without its context. -/
structure KVStore where
  /-- The provider queried by the reads. -/
  provider : Provider
  /-- The item of the next withdrawal index. -/
  nextWithdrawalIndex : Item
  /-- The item of the next withdrawal validator index. -/
  nextWithdrawalValidatorIndex : Item
  /-- The deposit queue. -/
  depositQueue : DepositQueue

/-- The method `GetNextWithdrawalIndex`; the constant `keys.BeaconStoreKey` is
declared outside the translated files and is the parameter `BeaconStoreKey`. -/
def KVStore.GetNextWithdrawalIndex (BeaconStoreKey : String) (kv : KVStore) :
    KVStore × (Nat × Option GoError) :=
  match kv.provider.Query BeaconStoreKey kv.nextWithdrawalIndex.Key 0 with
  | .error err => (kv, (0, some err))
  | .ok res =>
    match kv.nextWithdrawalIndex.Decode res with
    | .error err => (kv, (0, some err))
    | .ok index => (kv, (index, none))

/-- The method `SetNextWithdrawalIndex`. -/
def KVStore.SetNextWithdrawalIndex (kv : KVStore) (_index : Nat) :
    KVStore × Except RuntimePanic (Option GoError) :=
  (kv, .error .writesNotSupported)

/-- The method `GetNextWithdrawalValidatorIndex`. -/
def KVStore.GetNextWithdrawalValidatorIndex (BeaconStoreKey : String)
    (kv : KVStore) : KVStore × (Nat × Option GoError) :=
  match kv.provider.Query BeaconStoreKey
      kv.nextWithdrawalValidatorIndex.Key 0 with
  | .error err => (kv, (0, some err))
  | .ok res =>
    match kv.nextWithdrawalValidatorIndex.Decode res with
    | .error err => (kv, (0, some err))
    | .ok index => (kv, (index, none))

/-- The method `SetNextWithdrawalValidatorIndex`. -/
def KVStore.SetNextWithdrawalValidatorIndex (kv : KVStore) (_index : Nat) :
    KVStore × Except RuntimePanic (Option GoError) :=
  (kv, .error .writesNotSupported)

/-- The method `ExpectedDeposits`: the peek of the deposit queue. -/
def KVStore.ExpectedDeposits (kv : KVStore) (numView : Nat) :
    KVStore × (List Deposit × Option GoError) :=
  match kv.depositQueue.PeekMulti numView with
  | (q, r) => ({ kv with depositQueue := q }, r)

/-- The method `EnqueueDeposits`. -/
def KVStore.EnqueueDeposits (kv : KVStore) (_deposits : List Deposit) :
    KVStore × Except RuntimePanic (Option GoError) :=
  (kv, .error .writesNotSupported)

/-- The method `DequeueDeposits`. -/
def KVStore.DequeueDeposits (kv : KVStore) (_numDequeue : Nat) :
    KVStore × Except RuntimePanic (List Deposit × Option GoError) :=
  (kv, .error .writesNotSupported)

/-! ## Sample values for payload admission and domains -/

/-- A hash with every byte `0xaa`. -/
def sampleHashA : Hash := fun _ => 0xaa

/-- A hash with every byte `0xbb`. -/
def sampleHashB : Hash := fun _ => 0xbb

/-- A randao mix with every byte `0x11`. -/
def sampleMix : Bytes32 := fun _ => 0x11

/-- A randao mix with every byte `0x22`. -/
def sampleOtherMix : Bytes32 := fun _ => 0x22

/-- The withdrawal of `TestWithdrawal`. -/
def sampleWithdrawal : Withdrawal :=
  { Index := 1
    Validator := 1
    Address := fun i => if i.val < 5 then ⟨i.val + 1, by omega⟩ else 0
    Amount := 1000 }

/-- A KZG commitment with every byte zero. -/
def sampleCommitment : KZGCommitment := fun _ => 0

/-- A configuration with 32 slots per epoch, 8 epochs per historical vector
and at most 2 blobs and 2 withdrawals. -/
def sampleConfig : BeaconChainConfig :=
  { SlotToEpoch := fun slot => slot / 32
    EpochsPerHistoricalVector := 8
    MaxBlobsPerBlock := 2
    MaxWithdrawalsPerPayload := 2 }

/-- The sample configuration with a zero `EpochsPerHistoricalVector`. -/
def sampleZeroVectorConfig : BeaconChainConfig :=
  { sampleConfig with EpochsPerHistoricalVector := 0 }

/-- A payload with parent hash `A`, randao `0x11..`, and two withdrawals. -/
def samplePayload : ExecutionPayload :=
  { IsNil := false
    GetParentHash := sampleHashA
    GetPrevRandao := sampleMix
    GetBlockHash := sampleHashB
    GetWithdrawals := [sampleWithdrawal, sampleWithdrawal] }

/-- A body carrying `samplePayload` and two blob commitments. -/
def sampleBody : BeaconBlockBody :=
  { IsNil := false
    GetExecutionPayload := some samplePayload
    GetBlobKzgCommitments := [sampleCommitment, sampleCommitment] }

/-- The latest execution payload of the sample state: block hash `A`. -/
def sampleLatestPayload : ExecutionPayload :=
  { IsNil := false
    GetParentHash := sampleHashB
    GetPrevRandao := sampleOtherMix
    GetBlockHash := sampleHashA
    GetWithdrawals := [] }

/-- A state at slot 70 (epoch 2): eth1 block hash `B`, latest payload with
block hash `A`, randao mix `0x11..` at index 2 and `0x22..` elsewhere. -/
def sampleState : BeaconState :=
  { GetSlot := .ok 70
    GetEth1BlockHash := .ok sampleHashB
    GetLatestExecutionPayload := .ok sampleLatestPayload
    GetRandaoMixAtIndex :=
      fun i => if i = 2 then .ok sampleMix else .ok sampleOtherMix }

/-- A state at slot 1 whose eth1 block hash is `B`, whose latest payload has
block hash `A` and whose randao mix is `0x11..` at every index. -/
def sampleGenesisState : BeaconState :=
  { GetSlot := .ok 1
    GetEth1BlockHash := .ok sampleHashB
    GetLatestExecutionPayload := .ok sampleLatestPayload
    GetRandaoMixAtIndex := fun _ => .ok sampleMix }

/-- A state at slot 70 whose randao mix is `0x11..` at every index. -/
def sampleConstantMixState : BeaconState :=
  { sampleState with GetRandaoMixAtIndex := fun _ => .ok sampleMix }

/-- A state on which every read fails. -/
def failingState : BeaconState :=
  { GetSlot := .error ⟨"slot unavailable"⟩
    GetEth1BlockHash := .error ⟨"eth1 block hash unavailable"⟩
    GetLatestExecutionPayload := .error ⟨"payload unavailable"⟩
    GetRandaoMixAtIndex := fun _ => .error ⟨"randao mix unavailable"⟩ }

/-- A body whose `IsNil()` is true. -/
def sampleNilBody : BeaconBlockBody := { sampleBody with IsNil := true }

/-- A body that returns a `nil` execution payload. -/
def sampleBodyWithoutPayload : BeaconBlockBody :=
  { sampleBody with GetExecutionPayload := none }

/-- A body whose execution payload has `IsNil()` true. -/
def sampleBodyWithNilPayload : BeaconBlockBody :=
  { sampleBody with
    GetExecutionPayload := some { samplePayload with IsNil := true } }

/-- A body whose payload has the wrong parent hash `B` and three
withdrawals, one more than the sample configuration allows. -/
def sampleBadParentBody : BeaconBlockBody :=
  { sampleBody with
    GetExecutionPayload :=
      some
        { samplePayload with
          GetParentHash := sampleHashB
          GetWithdrawals :=
            [sampleWithdrawal, sampleWithdrawal, sampleWithdrawal] } }

/-- A body whose payload has the wrong randao `0x22..` and which carries three
blob commitments, one more than the sample configuration allows. -/
def sampleBadRandaoBody : BeaconBlockBody :=
  { sampleBody with
    GetExecutionPayload :=
      some { samplePayload with GetPrevRandao := sampleOtherMix }
    GetBlobKzgCommitments :=
      [sampleCommitment, sampleCommitment, sampleCommitment] }

/-- The sample body with three blob commitments. -/
def sampleThreeBlobBody : BeaconBlockBody :=
  { sampleBody with
    GetBlobKzgCommitments :=
      [sampleCommitment, sampleCommitment, sampleCommitment] }

/-- The sample body with three withdrawals in its payload. -/
def sampleThreeWithdrawalBody : BeaconBlockBody :=
  { sampleBody with
    GetExecutionPayload :=
      some
        { samplePayload with
          GetWithdrawals :=
            [sampleWithdrawal, sampleWithdrawal, sampleWithdrawal] } }

/-- The sample body with three blob commitments and three withdrawals, one
more of each than the sample configuration allows; its parent hash and randao
are those of the sample payload. -/
def sampleOverfullBody : BeaconBlockBody :=
  { sampleBody with
    GetExecutionPayload :=
      some
        { samplePayload with
          GetWithdrawals :=
            [sampleWithdrawal, sampleWithdrawal, sampleWithdrawal] }
    GetBlobKzgCommitments :=
      [sampleCommitment, sampleCommitment, sampleCommitment] }

/-- The sample state with a failing read of the randao mix. -/
def sampleMixFailingState : BeaconState :=
  { sampleState with
    GetRandaoMixAtIndex := fun _ => .error ⟨"randao mix unavailable"⟩ }

/-- The sample state with a failing read of the latest execution payload. -/
def samplePayloadFailingState : BeaconState :=
  { sampleState with
    GetLatestExecutionPayload := .error ⟨"payload unavailable"⟩ }

/-- The fork data with version `1.0.0.0` and genesis root `0xbb..`. -/
def sampleForkData : ForkData :=
  NewForkData (fun i => if i = 0 then 1 else 0) sampleHashB

/-- A domain type `07 00 00 00`. -/
def sampleDomainType : DomainType := fun i => if i = 0 then 7 else 0

/-- A stand-in for the hashing primitive: it returns the genesis validators
root with its byte 0 replaced by byte 0 of the version. -/
def sampleHashTreeRoot (fd : ForkData) : Except GoError Root :=
  .ok (fun i => if i = 0 then fd.CurrentVersion 0
    else fd.GenesisValidatorsRoot i)

/-- A second domain type, `01 00 00 00`. -/
def sampleOtherDomainType : DomainType := fun i => if i = 0 then 1 else 0

/-- A hashing primitive that always fails. -/
def failingHashTreeRoot (_fd : ForkData) : Except GoError Root :=
  .error ⟨"hash tree root failed"⟩

/-- A stand-in root for the signing-root primitive: the domain with its last
byte replaced by the low byte of the value signed. -/
def sampleSigningRootOf (value : Nat) (domain : Domain) : Root :=
  fun i => if i = 31 then ⟨value % 256, Nat.mod_lt _ (by decide)⟩
    else domain i

/-- A stand-in for `ssz.ComputeSigningRootUInt64` that succeeds. -/
def sampleComputeSigningRoot (value : Nat) (domain : Domain) :
    Except GoError Root :=
  .ok (sampleSigningRootOf value domain)

/-- A signing-root primitive that always fails. -/
def failingComputeSigningRoot (_value : Nat) (_domain : Domain) :
    Except GoError Root :=
  .error ⟨"merkleization failed"⟩

/-- A block at slot 70 with an all-zero state root. -/
def sampleBlock : BeaconBlock :=
  { Slot := 70
    StateRoot := zeroBytes 32
    Body := some sampleBody }

/-- A service over a counter state: the transition adds the slot of the block
to the counter and succeeds when the three skip flags are set, and fails
otherwise; the root of a state is the counter in byte 0. -/
def sampleService : Service Nat :=
  { Transition := fun ctx st blk =>
      if ctx.SkipPayloadVerification && ctx.SkipValidateResult &&
          ctx.SkipValidateRandao then
        (st + blk.Slot, none)
      else (st, some ⟨"payload not verified"⟩)
    HashTreeRoot := fun st =>
      (fun i => if i = 0 then ⟨st % 256, Nat.mod_lt _ (by decide)⟩ else 0,
        none) }

/-- A service whose transition fails after having changed the state. -/
def sampleFailingService : Service Nat :=
  { sampleService with
    Transition := fun _ st _ => (st + 1, some ⟨"transition failed"⟩) }

/-- The deposit with the given index, of 32e9 gwei. -/
def sampleDeposit (index : Nat) : Deposit :=
  { Pubkey := samplePubkey
    Credentials := sampleEth1Credentials
    Amount := 32000000000
    Index := index }

/-- A light store with three pending deposits, indexed 4, 5 and 6. -/
def sampleStore : KVStore :=
  { provider := { Query := fun _ key _ => .ok key }
    nextWithdrawalIndex := { Key := [1], Decode := fun b => .ok b.length }
    nextWithdrawalValidatorIndex :=
      { Key := [2], Decode := fun b => .ok b.length }
    depositQueue :=
      { pending := [sampleDeposit 4, sampleDeposit 5, sampleDeposit 6] } }

/-! ## Arithmetic of the rounding step -/

/-- The `uint64` subtraction agrees with the exact one when nothing is
borrowed. -/
theorem u64Sub_eq_sub {a b : Nat} (ha : IsU64 a) (hb : b ≤ a) :
    u64Sub a b = a - b := by
  unfold u64Sub
  unfold IsU64 at ha
  have h : a + U64_MODULUS - b = (a - b) + U64_MODULUS := by omega
  rw [h, Nat.add_mod_right]
  exact Nat.mod_eq_of_lt (by omega)

/-- Rounding an amount down to the increment never borrows. -/
theorem u64Sub_mod_eq {a i : Nat} (ha : IsU64 a) :
    u64Sub a (a % i) = a - a % i :=
  u64Sub_eq_sub ha (Nat.mod_le a i)

/-- Subtracting one from a `uint64`, with wrap-around, changes it. -/
theorem u64Sub_one_ne {m : Nat} (hm : IsU64 m) : u64Sub m 1 ≠ m := by
  unfold u64Sub U64_MODULUS
  unfold IsU64 U64_MODULUS at hm
  omega

/-- The amount rounded down to the increment is a multiple of the increment. -/
theorem dvd_sub_mod_self (a i : Nat) : i ∣ a - a % i :=
  Nat.dvd_sub_mod a

/-- What `NewValidatorFromDeposit` returns for a positive increment. -/
theorem NewValidatorFromDeposit_ok (pubkey : BLSPubkey)
    (withdrawalCredentials : WithdrawalCredentials)
    (amount effectiveBalanceIncrement maxEffectiveBalance : Gwei)
    (hinc : 0 < effectiveBalanceIncrement) :
    NewValidatorFromDeposit pubkey withdrawalCredentials amount
        effectiveBalanceIncrement maxEffectiveBalance =
      .ok
        { Pubkey := pubkey
          WithdrawalCredentials := withdrawalCredentials
          EffectiveBalance :=
            min (u64Sub amount (amount % effectiveBalanceIncrement))
              maxEffectiveBalance
          Slashed := false
          ActivationEligibilityEpoch := FarFutureEpoch
          ActivationEpoch := FarFutureEpoch
          ExitEpoch := FarFutureEpoch
          WithdrawableEpoch := FarFutureEpoch } := by
  unfold NewValidatorFromDeposit
  rw [if_neg (Nat.pos_iff_ne_zero.mp hinc)]

/-! ## Claims about `NewValidatorFromDeposit` -/

/-- C1: for every `uint64` amount, increment greater than zero and maximum
effective balance, `NewValidatorFromDeposit` returns a validator whose
effective balance is `min (amount - amount mod increment) maximum`: the amount
rounded down to the increment, then capped. -/
theorem NewValidatorFromDeposit_effectiveBalance (pubkey : BLSPubkey)
    (withdrawalCredentials : WithdrawalCredentials)
    (amount effectiveBalanceIncrement maxEffectiveBalance : Gwei)
    (hamount : IsU64 amount) (hinc : 0 < effectiveBalanceIncrement) :
    ∃ v : Validator,
      NewValidatorFromDeposit pubkey withdrawalCredentials amount
          effectiveBalanceIncrement maxEffectiveBalance = .ok v ∧
      v.EffectiveBalance =
        min (amount - amount % effectiveBalanceIncrement)
          maxEffectiveBalance := by
  refine ⟨_, NewValidatorFromDeposit_ok pubkey withdrawalCredentials amount
    effectiveBalanceIncrement maxEffectiveBalance hinc, ?_⟩
  show min (u64Sub amount (amount % effectiveBalanceIncrement))
      maxEffectiveBalance = _
  rw [u64Sub_mod_eq hamount]

/-- Instance of C1 at the test vector "effective balance rounded down":
amount `32.5e9`, increment `1e9`, maximum `32e9`. -/
theorem NewValidatorFromDeposit_effectiveBalance_witness :
    IsU64 32500000000 ∧ 0 < 1000000000 ∧
    ∃ v : Validator,
      NewValidatorFromDeposit samplePubkey sampleEth1Credentials 32500000000
          1000000000 32000000000 = .ok v ∧
      v.EffectiveBalance =
        min (32500000000 - 32500000000 % 1000000000) 32000000000 :=
  ⟨by decide, by decide,
    NewValidatorFromDeposit_effectiveBalance samplePubkey
      sampleEth1Credentials 32500000000 1000000000 32000000000
      (by decide) (by decide)⟩

/-- C2: the validator returned by `NewValidatorFromDeposit` carries exactly
the given public key and withdrawal credentials, is not slashed, and has its
four epoch markers at the far-future sentinel; for an increment greater than
zero a validator is returned. (With a zero increment the Go code panics on the
modulo and returns no validator.) -/
theorem NewValidatorFromDeposit_fields (pubkey : BLSPubkey)
    (withdrawalCredentials : WithdrawalCredentials)
    (amount effectiveBalanceIncrement maxEffectiveBalance : Gwei) :
    (0 < effectiveBalanceIncrement →
      ∃ v : Validator,
        NewValidatorFromDeposit pubkey withdrawalCredentials amount
          effectiveBalanceIncrement maxEffectiveBalance = .ok v) ∧
    ∀ v : Validator,
      NewValidatorFromDeposit pubkey withdrawalCredentials amount
          effectiveBalanceIncrement maxEffectiveBalance = .ok v →
      v.Pubkey = pubkey ∧ v.WithdrawalCredentials = withdrawalCredentials ∧
        v.Slashed = false ∧
        v.ActivationEligibilityEpoch = FarFutureEpoch ∧
        v.ActivationEpoch = FarFutureEpoch ∧
        v.ExitEpoch = FarFutureEpoch ∧
        v.WithdrawableEpoch = FarFutureEpoch := by
  constructor
  · intro hinc
    exact ⟨_, NewValidatorFromDeposit_ok pubkey withdrawalCredentials amount
      effectiveBalanceIncrement maxEffectiveBalance hinc⟩
  · intro v hv
    unfold NewValidatorFromDeposit at hv
    by_cases h0 : effectiveBalanceIncrement = 0
    · rw [if_pos h0] at hv
      cases hv
    · rw [if_neg h0] at hv
      cases hv
      exact ⟨rfl, rfl, rfl, rfl, rfl, rfl, rfl⟩

/-- Instance of C2 at the test vector "effective balance capped at max". -/
theorem NewValidatorFromDeposit_fields_witness :
    ∃ v : Validator,
      NewValidatorFromDeposit samplePubkey sampleEth1Credentials 40000000000
          1000000000 32000000000 = .ok v ∧
      v.Pubkey = samplePubkey ∧
        v.WithdrawalCredentials = sampleEth1Credentials ∧
        v.Slashed = false ∧
        v.ActivationEligibilityEpoch = FarFutureEpoch ∧
        v.ActivationEpoch = FarFutureEpoch ∧
        v.ExitEpoch = FarFutureEpoch ∧
        v.WithdrawableEpoch = FarFutureEpoch := by
  have h := NewValidatorFromDeposit_fields samplePubkey sampleEth1Credentials
    40000000000 1000000000 32000000000
  obtain ⟨v, hv⟩ := h.1 (by decide)
  exact ⟨v, hv, h.2 v hv⟩

/-- C3, as stated, fails: with amount `40`, increment `3` and maximum `10`
(all `uint64`, increment positive) the created validator has effective balance
`min (40 - 40 % 3) 10 = 10`, which is not a multiple of `3`. -/
theorem NewValidatorFromDeposit_multiple_counterexample :
    IsU64 40 ∧ IsU64 3 ∧ IsU64 10 ∧ 0 < 3 ∧
    (NewValidatorFromDeposit samplePubkey sampleEth1Credentials 40 3 10).map
        Validator.EffectiveBalance = .ok 10 ∧
    ¬ (3 ∣ 10) := by
  refine ⟨by decide, by decide, by decide, by decide, rfl, by decide⟩

/-- C3, amended: for every `uint64` amount, increment greater than zero and
maximum, the effective balance of the created validator does not exceed the
maximum, and it is a multiple of the increment exactly when the rounded-down
amount is at most the maximum or the maximum is itself a multiple of the
increment. -/
theorem NewValidatorFromDeposit_effectiveBalance_bounds (pubkey : BLSPubkey)
    (withdrawalCredentials : WithdrawalCredentials)
    (amount effectiveBalanceIncrement maxEffectiveBalance : Gwei)
    (hamount : IsU64 amount) (hinc : 0 < effectiveBalanceIncrement) :
    ∃ v : Validator,
      NewValidatorFromDeposit pubkey withdrawalCredentials amount
          effectiveBalanceIncrement maxEffectiveBalance = .ok v ∧
      v.EffectiveBalance ≤ maxEffectiveBalance ∧
      (effectiveBalanceIncrement ∣ v.EffectiveBalance ↔
        (amount - amount % effectiveBalanceIncrement ≤ maxEffectiveBalance ∨
          effectiveBalanceIncrement ∣ maxEffectiveBalance)) := by
  refine ⟨_, NewValidatorFromDeposit_ok pubkey withdrawalCredentials amount
    effectiveBalanceIncrement maxEffectiveBalance hinc, ?_, ?_⟩
  · exact Nat.min_le_right _ _
  · show effectiveBalanceIncrement ∣
        min (u64Sub amount (amount % effectiveBalanceIncrement))
          maxEffectiveBalance ↔ _
    rw [u64Sub_mod_eq hamount]
    by_cases hle :
        amount - amount % effectiveBalanceIncrement ≤ maxEffectiveBalance
    · rw [Nat.min_eq_left hle]
      exact ⟨fun _ => Or.inl hle,
        fun _ => dvd_sub_mod_self amount effectiveBalanceIncrement⟩
    · rw [Nat.min_eq_right (Nat.le_of_lt (Nat.lt_of_not_le hle))]
      exact ⟨fun h => Or.inr h, fun h => h.resolve_left hle⟩

/-- Instance of amended C3 at amount `32.5e9`, increment `1e9`, maximum
`32e9`. -/
theorem NewValidatorFromDeposit_effectiveBalance_bounds_witness :
    IsU64 32500000000 ∧ 0 < 1000000000 ∧
    ∃ v : Validator,
      NewValidatorFromDeposit samplePubkey sampleEth1Credentials 32500000000
          1000000000 32000000000 = .ok v ∧
      v.EffectiveBalance ≤ 32000000000 ∧
      (1000000000 ∣ v.EffectiveBalance ↔
        (32500000000 - 32500000000 % 1000000000 ≤ 32000000000 ∨
          1000000000 ∣ 32000000000)) :=
  ⟨by decide, by decide,
    NewValidatorFromDeposit_effectiveBalance_bounds samplePubkey
      sampleEth1Credentials 32500000000 1000000000 32000000000
      (by decide) (by decide)⟩

/-! ## Claims about the lifecycle predicates -/

/-- C4: `IsActive e` is true exactly when `activation ≤ e` and `e < exit`; it
holds at `e = activation` when `activation < exit`, fails at `e = exit`, and
fails for every `e` below the activation epoch or at or above the exit
epoch. -/
theorem IsActive_iff_window (v : Validator) (e : Epoch) :
    (v.IsActive e = true ↔ v.ActivationEpoch ≤ e ∧ e < v.ExitEpoch) ∧
    (v.ActivationEpoch < v.ExitEpoch →
      v.IsActive v.ActivationEpoch = true) ∧
    v.IsActive v.ExitEpoch = false ∧
    (e < v.ActivationEpoch → v.IsActive e = false) ∧
    (v.ExitEpoch ≤ e → v.IsActive e = false) := by
  have key : ∀ x : Epoch,
      (v.IsActive x = true ↔ v.ActivationEpoch ≤ x ∧ x < v.ExitEpoch) := by
    intro x
    unfold Validator.IsActive
    rw [Bool.and_eq_true, decide_eq_true_iff, decide_eq_true_iff]
  have off : ∀ x : Epoch,
      ¬ (v.ActivationEpoch ≤ x ∧ x < v.ExitEpoch) → v.IsActive x = false := by
    intro x hx
    cases hb : v.IsActive x with
    | false => rfl
    | true => exact absurd ((key x).mp hb) hx
  refine ⟨key e, ?_, ?_, ?_, ?_⟩
  · intro h
    exact (key _).mpr ⟨Nat.le_refl _, h⟩
  · exact off _ (fun h => Nat.lt_irrefl _ h.2)
  · intro h
    exact off _ (fun h2 => Nat.lt_irrefl _ (Nat.lt_of_lt_of_le h h2.1))
  · intro h
    exact off _ (fun h2 => Nat.lt_irrefl _ (Nat.lt_of_lt_of_le h2.2 h))

/-- Instance of C4 on a validator with activation `5` and exit `15`: active at
epoch `5`, not at epoch `4`, not at epoch `16`. -/
theorem IsActive_iff_window_witness :
    sampleValidator.ActivationEpoch < sampleValidator.ExitEpoch ∧
    sampleValidator.IsActive sampleValidator.ActivationEpoch = true ∧
    (4 < sampleValidator.ActivationEpoch ∧
      sampleValidator.IsActive 4 = false) ∧
    (sampleValidator.ExitEpoch ≤ 16 ∧ sampleValidator.IsActive 16 = false) :=
  ⟨by decide, (IsActive_iff_window sampleValidator 10).2.1 (by decide),
    ⟨by decide, (IsActive_iff_window sampleValidator 4).2.2.2.1 (by decide)⟩,
    ⟨by decide, (IsActive_iff_window sampleValidator 16).2.2.2.2 (by decide)⟩⟩

/-- C5: `IsSlashable e` is true exactly when the validator is not slashed and
`activation ≤ e < withdrawable`; a slashed validator is slashable at no
epoch. -/
theorem IsSlashable_iff_unslashed_window (v : Validator) (e : Epoch) :
    (v.IsSlashable e = true ↔
      v.Slashed = false ∧ v.ActivationEpoch ≤ e ∧ e < v.WithdrawableEpoch) ∧
    (v.Slashed = true → ∀ x : Epoch, v.IsSlashable x = false) := by
  have key : ∀ x : Epoch,
      (v.IsSlashable x = true ↔
        v.Slashed = false ∧ v.ActivationEpoch ≤ x ∧
          x < v.WithdrawableEpoch) := by
    intro x
    unfold Validator.IsSlashable
    rw [Bool.and_eq_true, Bool.and_eq_true, decide_eq_true_iff,
      decide_eq_true_iff, Bool.not_eq_true', and_assoc]
  refine ⟨key e, ?_⟩
  intro hs x
  cases hb : v.IsSlashable x with
  | false => rfl
  | true =>
    have h := ((key x).mp hb).1
    rw [hs] at h
    cases h

/-- Instance of C5: the sample validator, once slashed, is not slashable at
epoch `10`, inside its window `5 ≤ 10 < 20`. -/
theorem IsSlashable_iff_unslashed_window_witness :
    ({ sampleValidator with Slashed := true } : Validator).Slashed = true ∧
    ({ sampleValidator with Slashed := true } : Validator).IsSlashable 10 =
      false :=
  ⟨rfl, (IsSlashable_iff_unslashed_window
    { sampleValidator with Slashed := true } 10).2 rfl 10⟩

/-- C6: `IsEligibleForActivation f` is true exactly when the
activation-eligibility epoch is at most `f` and the activation epoch still
equals the far-future sentinel. -/
theorem IsEligibleForActivation_iff (v : Validator) (f : Epoch) :
    v.IsEligibleForActivation f = true ↔
      v.ActivationEligibilityEpoch ≤ f ∧
        v.ActivationEpoch = FarFutureEpoch := by
  unfold Validator.IsEligibleForActivation
  rw [Bool.and_eq_true, decide_eq_true_iff, decide_eq_true_iff]

/-- C7: `IsEligibleForActivationQueue m` is true exactly when the
activation-eligibility epoch equals the far-future sentinel and the effective
balance equals `m`; an effective balance of `m - 1` (the `uint64` difference)
is not eligible. -/
theorem IsEligibleForActivationQueue_iff (v : Validator) (m : Gwei) :
    (v.IsEligibleForActivationQueue m = true ↔
      v.ActivationEligibilityEpoch = FarFutureEpoch ∧
        v.EffectiveBalance = m) ∧
    (IsU64 m → v.EffectiveBalance = u64Sub m 1 →
      v.IsEligibleForActivationQueue m = false) := by
  have key : v.IsEligibleForActivationQueue m = true ↔
      v.ActivationEligibilityEpoch = FarFutureEpoch ∧
        v.EffectiveBalance = m := by
    unfold Validator.IsEligibleForActivationQueue
    rw [Bool.and_eq_true, decide_eq_true_iff, decide_eq_true_iff]
  refine ⟨key, ?_⟩
  intro hm hbal
  cases hb : v.IsEligibleForActivationQueue m with
  | false => rfl
  | true =>
    exfalso
    have h := (key.mp hb).2
    rw [hbal] at h
    exact absurd h (u64Sub_one_ne hm)

/-- Instance of C7 at `m = 32e9`: a validator with the sentinel eligibility
epoch and effective balance `32e9 - 1` is not eligible for the queue. -/
theorem IsEligibleForActivationQueue_iff_witness :
    IsU64 32000000000 ∧
    ({ sampleValidator with
        ActivationEligibilityEpoch := FarFutureEpoch
        EffectiveBalance := 31999999999 } : Validator).EffectiveBalance =
      u64Sub 32000000000 1 ∧
    ({ sampleValidator with
        ActivationEligibilityEpoch := FarFutureEpoch
        EffectiveBalance := 31999999999 } :
      Validator).IsEligibleForActivationQueue 32000000000 = false :=
  ⟨by decide, by decide,
    (IsEligibleForActivationQueue_iff
      { sampleValidator with
        ActivationEligibilityEpoch := FarFutureEpoch
        EffectiveBalance := 31999999999 } 32000000000).2
      (by decide) (by decide)⟩

/-- C10: `HasEth1WithdrawalCredentials` is true exactly when byte 0 of the
withdrawal credentials equals the eth1/secp256k1 prefix constant; two
validators that agree on that byte get the same answer, whatever their other
31 credential bytes and their other fields are. -/
theorem HasEth1WithdrawalCredentials_iff_byte0 (v : Validator) :
    (v.HasEth1WithdrawalCredentials = true ↔
      v.WithdrawalCredentials 0 = EthSecp256k1CredentialPrefix) ∧
    ∀ w : Validator, w.WithdrawalCredentials 0 = v.WithdrawalCredentials 0 →
      w.HasEth1WithdrawalCredentials = v.HasEth1WithdrawalCredentials := by
  constructor
  · unfold Validator.HasEth1WithdrawalCredentials
    rw [decide_eq_true_iff]
  · intro w hw
    unfold Validator.HasEth1WithdrawalCredentials
    rw [hw]

/-- Instance of C10: two validators sharing only byte 0 of their credentials
agree on `HasEth1WithdrawalCredentials`. -/
theorem HasEth1WithdrawalCredentials_iff_byte0_witness :
    sampleOtherValidator.WithdrawalCredentials 0 =
      sampleValidator.WithdrawalCredentials 0 ∧
    sampleOtherValidator.WithdrawalCredentials 12 ≠
      sampleValidator.WithdrawalCredentials 12 ∧
    sampleOtherValidator.HasEth1WithdrawalCredentials =
      sampleValidator.HasEth1WithdrawalCredentials :=
  ⟨by decide, by decide,
    (HasEth1WithdrawalCredentials_iff_byte0 sampleValidator).2
      sampleOtherValidator (by decide)⟩

/-- C8: `IsFullyWithdrawable balance e` is true exactly when byte 0 of the
credentials is the eth1 prefix, `withdrawable ≤ e` and `balance > 0`; with
non-eth1 credentials it is false for every epoch and every balance. -/
theorem IsFullyWithdrawable_iff (v : Validator) (balance : Gwei) (e : Epoch) :
    (v.IsFullyWithdrawable balance e = true ↔
      v.WithdrawalCredentials 0 = EthSecp256k1CredentialPrefix ∧
        v.WithdrawableEpoch ≤ e ∧ 0 < balance) ∧
    (v.WithdrawalCredentials 0 ≠ EthSecp256k1CredentialPrefix →
      ∀ (b : Gwei) (x : Epoch), v.IsFullyWithdrawable b x = false) := by
  have key : ∀ (b : Gwei) (x : Epoch),
      (v.IsFullyWithdrawable b x = true ↔
        v.WithdrawalCredentials 0 = EthSecp256k1CredentialPrefix ∧
          v.WithdrawableEpoch ≤ x ∧ 0 < b) := by
    intro b x
    unfold Validator.IsFullyWithdrawable
      Validator.HasEth1WithdrawalCredentials
    rw [Bool.and_eq_true, Bool.and_eq_true, decide_eq_true_iff,
      decide_eq_true_iff, decide_eq_true_iff, and_assoc]
  refine ⟨key balance e, ?_⟩
  intro hne b x
  cases hb : v.IsFullyWithdrawable b x with
  | false => rfl
  | true => exact absurd ((key b x).mp hb).1 hne

/-- Instance of C8: with the all-zero credentials the validator is not fully
withdrawable at epoch `10` with balance `32e9`, although `withdrawable = 5`. -/
theorem IsFullyWithdrawable_iff_witness :
    sampleNonEth1Validator.WithdrawalCredentials 0 ≠
      EthSecp256k1CredentialPrefix ∧
    sampleNonEth1Validator.WithdrawableEpoch ≤ 10 ∧
    sampleNonEth1Validator.IsFullyWithdrawable 32000000000 10 = false :=
  ⟨by decide, by decide,
    (IsFullyWithdrawable_iff sampleNonEth1Validator 0 0).2 (by decide)
      32000000000 10⟩

/-- C9: `IsPartiallyWithdrawable balance m` is true exactly when byte 0 of the
credentials is the eth1 prefix, the effective balance equals `m` and
`balance > m`; a balance equal to `m` is not partially withdrawable. -/
theorem IsPartiallyWithdrawable_iff (v : Validator) (balance m : Gwei) :
    (v.IsPartiallyWithdrawable balance m = true ↔
      v.WithdrawalCredentials 0 = EthSecp256k1CredentialPrefix ∧
        v.EffectiveBalance = m ∧ m < balance) ∧
    v.IsPartiallyWithdrawable m m = false := by
  have key : ∀ b : Gwei,
      (v.IsPartiallyWithdrawable b m = true ↔
        v.WithdrawalCredentials 0 = EthSecp256k1CredentialPrefix ∧
          v.EffectiveBalance = m ∧ m < b) := by
    intro b
    unfold Validator.IsPartiallyWithdrawable
      Validator.HasEth1WithdrawalCredentials Validator.HasMaxEffectiveBalance
    show (_ && _ && _) = true ↔ _
    rw [Bool.and_eq_true, Bool.and_eq_true, decide_eq_true_iff,
      decide_eq_true_iff, decide_eq_true_iff, and_assoc]
  refine ⟨key balance, ?_⟩
  cases hb : v.IsPartiallyWithdrawable m m with
  | false => rfl
  | true => exact absurd ((key m).mp hb).2.2 (Nat.lt_irrefl m)

/-! ## The vectors of `validator_test.go` -/

/-- The three cases of `TestNewValidatorFromDeposit`: each yields effective
balance `32e9`. -/
theorem test_NewValidatorFromDeposit :
    (NewValidatorFromDeposit samplePubkey sampleEth1Credentials 32000000000
        1000000000 32000000000).map Validator.EffectiveBalance =
      .ok 32000000000 ∧
    (NewValidatorFromDeposit samplePubkey sampleEth1Credentials 40000000000
        1000000000 32000000000).map Validator.EffectiveBalance =
      .ok 32000000000 ∧
    (NewValidatorFromDeposit samplePubkey sampleEth1Credentials 32500000000
        1000000000 32000000000).map Validator.EffectiveBalance =
      .ok 32000000000 :=
  ⟨rfl, rfl, rfl⟩

/-- The cases of `TestValidator_IsActive` and `TestValidator_IsSlashable`,
on a validator with activation `5`, exit `15` and withdrawable `15`. -/
theorem test_IsActive_IsSlashable :
    sampleValidator.IsActive 10 = true ∧
    sampleValidator.IsActive 4 = false ∧
    sampleValidator.IsActive 16 = false ∧
    ({ sampleValidator with WithdrawableEpoch := 15 } : Validator).IsSlashable
        10 = true ∧
    ({ sampleValidator with WithdrawableEpoch := 15, Slashed := true } :
      Validator).IsSlashable 10 = false ∧
    ({ sampleValidator with WithdrawableEpoch := 15 } : Validator).IsSlashable
        4 = false ∧
    ({ sampleValidator with WithdrawableEpoch := 15 } : Validator).IsSlashable
        16 = false := by
  decide

/-- The cases of `TestValidator_IsEligibleForActivation` and
`TestValidator_IsEligibleForActivationQueue`. -/
theorem test_IsEligibleForActivation :
    ({ sampleValidator with
        ActivationEligibilityEpoch := 5, ActivationEpoch := FarFutureEpoch } :
      Validator).IsEligibleForActivation 10 = true ∧
    ({ sampleValidator with
        ActivationEligibilityEpoch := 5, ActivationEpoch := FarFutureEpoch } :
      Validator).IsEligibleForActivation 4 = false ∧
    ({ sampleValidator with
        ActivationEligibilityEpoch := 5, ActivationEpoch := 8 } :
      Validator).IsEligibleForActivation 10 = false ∧
    ({ sampleValidator with ActivationEligibilityEpoch := FarFutureEpoch } :
      Validator).IsEligibleForActivationQueue 32000000000 = true ∧
    ({ sampleValidator with ActivationEligibilityEpoch := 5 } :
      Validator).IsEligibleForActivationQueue 32000000000 = false ∧
    ({ sampleValidator with
        ActivationEligibilityEpoch := FarFutureEpoch,
        EffectiveBalance := 31999999999 } :
      Validator).IsEligibleForActivationQueue 32000000000 = false := by
  decide

/-- The cases of `TestValidator_IsFullyWithdrawable` and
`TestValidator_IsPartiallyWithdrawable`. -/
theorem test_withdrawable :
    ({ sampleValidator with WithdrawableEpoch := 5 } :
      Validator).IsFullyWithdrawable 32000000000 10 = true ∧
    sampleNonEth1Validator.IsFullyWithdrawable 32000000000 10 = false ∧
    ({ sampleValidator with WithdrawableEpoch := 5 } :
      Validator).IsFullyWithdrawable 32000000000 4 = false ∧
    ({ sampleValidator with WithdrawableEpoch := 5 } :
      Validator).IsFullyWithdrawable 0 10 = false ∧
    sampleValidator.IsPartiallyWithdrawable 33000000000 32000000000 = true ∧
    sampleNonEth1Validator.IsPartiallyWithdrawable 33000000000 32000000000 =
      false ∧
    ({ sampleValidator with EffectiveBalance := 31999999999 } :
      Validator).IsPartiallyWithdrawable 33000000000 32000000000 = false ∧
    sampleValidator.IsPartiallyWithdrawable 32000000000 32000000000 =
      false := by
  decide

/-! ## The stages of `ValidatePayload` -/

/-- The safe hash at slot 0 or 1 is the result of `GetEth1BlockHash`. -/
theorem safeHashOf_genesis (st : BeaconState) (slot : Slot) (h : slot ≤ 1) :
    safeHashOf st slot = st.GetEth1BlockHash := by
  unfold safeHashOf
  rw [if_pos h]

/-- The safe hash from slot 2 on is the block hash of the latest execution
payload, when reading it succeeds. -/
theorem safeHashOf_later (st : BeaconState) (slot : Slot) (h : 2 ≤ slot)
    (latest : ExecutionPayload)
    (hl : st.GetLatestExecutionPayload = .ok latest) :
    safeHashOf st slot = .ok latest.GetBlockHash := by
  unfold safeHashOf
  rw [if_neg (Nat.not_le.mpr h), hl]

/-- The modulo of a `uint64` by a positive divisor does not panic. -/
theorem u64Mod_pos (a b : Nat) (h : 0 < b) : u64Mod a b = .ok (a % b) := by
  unfold u64Mod
  rw [if_neg (Nat.pos_iff_ne_zero.mp h)]

/-- A body whose `IsNil()` is true is rejected with `ErrNilBlkBody`. -/
theorem ValidatePayload_body_isNil (pv : PayloadValidator) (st : BeaconState)
    (body : BeaconBlockBody) (hb : body.IsNil = true) :
    pv.ValidatePayload st (some body) = .ok (some .ErrNilBlkBody) := by
  simp only [PayloadValidator.ValidatePayload, hb, if_true]

/-- A present body without payload is rejected with `ErrNilPayload`. -/
theorem ValidatePayload_payload_nil (pv : PayloadValidator) (st : BeaconState)
    (body : BeaconBlockBody) (hb : body.IsNil = false)
    (hp : body.GetExecutionPayload = none) :
    pv.ValidatePayload st (some body) = .ok (some .ErrNilPayload) := by
  simp [PayloadValidator.ValidatePayload, hb, hp]

/-- A present body whose payload has `IsNil()` true is rejected with
`ErrNilPayload`. -/
theorem ValidatePayload_payload_isNil (pv : PayloadValidator)
    (st : BeaconState) (body : BeaconBlockBody) (payload : ExecutionPayload)
    (hb : body.IsNil = false) (hp : body.GetExecutionPayload = some payload)
    (hpn : payload.IsNil = true) :
    pv.ValidatePayload st (some body) = .ok (some .ErrNilPayload) := by
  simp [PayloadValidator.ValidatePayload, hb, hp, hpn]

/-- With body and payload present, a failing slot read is returned. -/
theorem ValidatePayload_slot_error (pv : PayloadValidator) (st : BeaconState)
    (body : BeaconBlockBody) (payload : ExecutionPayload)
    (hb : body.IsNil = false) (hp : body.GetExecutionPayload = some payload)
    (hpn : payload.IsNil = false) (err : GoError)
    (hslot : st.GetSlot = .error err) :
    pv.ValidatePayload st (some body) = .ok (some (.stateRead err)) := by
  simp [PayloadValidator.ValidatePayload, hb, hp, hpn, hslot]

/-- With body and payload present, a failing safe-hash read is returned. -/
theorem ValidatePayload_safeHash_error (pv : PayloadValidator)
    (st : BeaconState) (body : BeaconBlockBody) (payload : ExecutionPayload)
    (hb : body.IsNil = false) (hp : body.GetExecutionPayload = some payload)
    (hpn : payload.IsNil = false) (slot : Slot) (hslot : st.GetSlot = .ok slot)
    (err : GoError) (hsafe : safeHashOf st slot = .error err) :
    pv.ValidatePayload st (some body) = .ok (some (.stateRead err)) := by
  simp [PayloadValidator.ValidatePayload, hb, hp, hpn, hslot, hsafe]

/-- A parent hash that differs from the safe hash is rejected. -/
theorem ValidatePayload_parent_mismatch (pv : PayloadValidator)
    (st : BeaconState) (body : BeaconBlockBody) (payload : ExecutionPayload)
    (hb : body.IsNil = false) (hp : body.GetExecutionPayload = some payload)
    (hpn : payload.IsNil = false) (slot : Slot) (hslot : st.GetSlot = .ok slot)
    (safeHash : Hash) (hsafe : safeHashOf st slot = .ok safeHash)
    (hne : payload.GetParentHash ≠ safeHash) :
    pv.ValidatePayload st (some body) =
      .ok (some (.parentNotFinalized payload.GetParentHash safeHash)) := by
  simp [PayloadValidator.ValidatePayload, hb, hp, hpn, hslot, hsafe,
    Ne.symm hne]

/-- Past the parent-hash check, a zero `EpochsPerHistoricalVector` makes the
computation of the randao index panic. -/
theorem ValidatePayload_zero_vector (pv : PayloadValidator)
    (st : BeaconState) (body : BeaconBlockBody) (payload : ExecutionPayload)
    (hb : body.IsNil = false) (hp : body.GetExecutionPayload = some payload)
    (hpn : payload.IsNil = false) (slot : Slot) (hslot : st.GetSlot = .ok slot)
    (safeHash : Hash) (hsafe : safeHashOf st slot = .ok safeHash)
    (heq : payload.GetParentHash = safeHash)
    (hE : pv.cfg.EpochsPerHistoricalVector = 0) :
    pv.ValidatePayload st (some body) = .error .integerDivideByZero := by
  simp [PayloadValidator.ValidatePayload, hb, hp, hpn, hslot, hsafe, heq, hE,
    u64Mod]

/-- Past the parent-hash check, a failing randao read is returned. -/
theorem ValidatePayload_mix_error (pv : PayloadValidator)
    (st : BeaconState) (body : BeaconBlockBody) (payload : ExecutionPayload)
    (hb : body.IsNil = false) (hp : body.GetExecutionPayload = some payload)
    (hpn : payload.IsNil = false) (slot : Slot) (hslot : st.GetSlot = .ok slot)
    (safeHash : Hash) (hsafe : safeHashOf st slot = .ok safeHash)
    (heq : payload.GetParentHash = safeHash)
    (hE : 0 < pv.cfg.EpochsPerHistoricalVector) (err : GoError)
    (hmix : st.GetRandaoMixAtIndex
        (pv.cfg.SlotToEpoch slot % pv.cfg.EpochsPerHistoricalVector) =
      .error err) :
    pv.ValidatePayload st (some body) = .ok (some (.stateRead err)) := by
  simp [PayloadValidator.ValidatePayload, hb, hp, hpn, hslot, hsafe, heq,
    u64Mod_pos _ _ hE, hmix]

/-- Past the parent-hash check and the randao read, the three remaining
checks decide the result. -/
theorem ValidatePayload_after_reads (pv : PayloadValidator)
    (st : BeaconState) (body : BeaconBlockBody) (payload : ExecutionPayload)
    (hb : body.IsNil = false) (hp : body.GetExecutionPayload = some payload)
    (hpn : payload.IsNil = false) (slot : Slot) (hslot : st.GetSlot = .ok slot)
    (safeHash : Hash) (hsafe : safeHashOf st slot = .ok safeHash)
    (heq : payload.GetParentHash = safeHash)
    (hE : 0 < pv.cfg.EpochsPerHistoricalVector) (mix : Bytes32)
    (hmix : st.GetRandaoMixAtIndex
        (pv.cfg.SlotToEpoch slot % pv.cfg.EpochsPerHistoricalVector) =
      .ok mix) :
    pv.ValidatePayload st (some body) =
      if payload.GetPrevRandao ≠ mix then
        .ok (some (.prevRandaoMismatch mix payload.GetPrevRandao))
      else if body.GetBlobKzgCommitments.length >
          pv.cfg.MaxBlobsPerBlock then
        .ok (some
          (.tooManyBlobKzgCommitments pv.cfg.MaxBlobsPerBlock
            body.GetBlobKzgCommitments.length))
      else if payload.GetWithdrawals.length >
          pv.cfg.MaxWithdrawalsPerPayload then
        .ok (some
          (.tooManyWithdrawals pv.cfg.MaxWithdrawalsPerPayload
            payload.GetWithdrawals.length))
      else .ok none := by
  simp [PayloadValidator.ValidatePayload, hb, hp, hpn, hslot, hsafe, heq,
    u64Mod_pos _ _ hE, hmix]

/-- When the parent hash equals the safe hash, the result is not the
parent-hash error, whatever the later stages do. -/
theorem ValidatePayload_parent_match (pv : PayloadValidator)
    (st : BeaconState) (body : BeaconBlockBody) (payload : ExecutionPayload)
    (hb : body.IsNil = false) (hp : body.GetExecutionPayload = some payload)
    (hpn : payload.IsNil = false) (slot : Slot) (hslot : st.GetSlot = .ok slot)
    (safeHash : Hash) (hsafe : safeHashOf st slot = .ok safeHash)
    (heq : payload.GetParentHash = safeHash) (a b : Hash) :
    pv.ValidatePayload st (some body) ≠
      .ok (some (.parentNotFinalized a b)) := by
  by_cases hE : pv.cfg.EpochsPerHistoricalVector = 0
  · rw [ValidatePayload_zero_vector pv st body payload hb hp hpn slot hslot
      safeHash hsafe heq hE]
    intro h
    cases h
  · have hpos : 0 < pv.cfg.EpochsPerHistoricalVector :=
      Nat.pos_of_ne_zero hE
    cases hmix : st.GetRandaoMixAtIndex
        (pv.cfg.SlotToEpoch slot % pv.cfg.EpochsPerHistoricalVector) with
    | error err =>
      rw [ValidatePayload_mix_error pv st body payload hb hp hpn slot hslot
        safeHash hsafe heq hpos err hmix]
      intro h
      cases h
    | ok mix =>
      rw [ValidatePayload_after_reads pv st body payload hb hp hpn slot hslot
        safeHash hsafe heq hpos mix hmix]
      split_ifs <;> intro h <;> cases h

/-! ## Claims about the registry as a whole and about `ValidatePayload` -/

/-- C11, as stated, fails: with a zero balance increment the modulo of
`NewValidatorFromDeposit` panics, and no validator is returned. -/
theorem NewValidatorFromDeposit_zero_increment_counterexample :
    IsU64 32000000000 ∧ IsU64 0 ∧
    NewValidatorFromDeposit samplePubkey sampleEth1Credentials 32000000000 0
        32000000000 = .error .integerDivideByZero ∧
    ¬ ∃ v : Validator,
      NewValidatorFromDeposit samplePubkey sampleEth1Credentials 32000000000
        0 32000000000 = .ok v := by
  refine ⟨by decide, by decide, rfl, ?_⟩
  rintro ⟨v, hv⟩
  cases hv

/-- C11, amended: `NewValidatorFromDeposit` returns a validator exactly when
the balance increment is greater than zero (for every amount and maximum), the
validator it returns has `uint64` fields, and each of the eight predicates
returns a boolean for every validator and every parameter value. -/
theorem registry_operations_total (pubkey : BLSPubkey)
    (withdrawalCredentials : WithdrawalCredentials)
    (amount effectiveBalanceIncrement maxEffectiveBalance : Gwei)
    (v : Validator) (epoch : Epoch) (balance m : Gwei) :
    ((∃ w : Validator,
        NewValidatorFromDeposit pubkey withdrawalCredentials amount
          effectiveBalanceIncrement maxEffectiveBalance = .ok w) ↔
      0 < effectiveBalanceIncrement) ∧
    (∀ w : Validator,
      NewValidatorFromDeposit pubkey withdrawalCredentials amount
          effectiveBalanceIncrement maxEffectiveBalance = .ok w →
        w.WellFormed) ∧
    (∃ b : Bool, v.IsActive epoch = b) ∧
    (∃ b : Bool, v.IsEligibleForActivation epoch = b) ∧
    (∃ b : Bool, v.IsEligibleForActivationQueue m = b) ∧
    (∃ b : Bool, v.IsSlashable epoch = b) ∧
    (∃ b : Bool, v.IsFullyWithdrawable balance epoch = b) ∧
    (∃ b : Bool, v.IsPartiallyWithdrawable balance m = b) ∧
    (∃ b : Bool, v.HasEth1WithdrawalCredentials = b) ∧
    (∃ b : Bool, v.HasMaxEffectiveBalance m = b) := by
  refine ⟨⟨?_, ?_⟩, ?_, ⟨_, rfl⟩, ⟨_, rfl⟩, ⟨_, rfl⟩, ⟨_, rfl⟩, ⟨_, rfl⟩,
    ⟨_, rfl⟩, ⟨_, rfl⟩, ⟨_, rfl⟩⟩
  · rintro ⟨w, hw⟩
    unfold NewValidatorFromDeposit at hw
    by_cases h0 : effectiveBalanceIncrement = 0
    · rw [if_pos h0] at hw
      cases hw
    · exact Nat.pos_of_ne_zero h0
  · intro hinc
    exact ⟨_, NewValidatorFromDeposit_ok pubkey withdrawalCredentials amount
      effectiveBalanceIncrement maxEffectiveBalance hinc⟩
  · intro w hw
    unfold NewValidatorFromDeposit at hw
    by_cases h0 : effectiveBalanceIncrement = 0
    · rw [if_pos h0] at hw
      cases hw
    · rw [if_neg h0] at hw
      cases hw
      have hfar : IsU64 FarFutureEpoch := by decide
      refine ⟨?_, hfar, hfar, hfar, hfar⟩
      exact Nat.lt_of_le_of_lt (Nat.min_le_left _ _)
        (Nat.mod_lt _ (by decide))

/-- Instance of amended C11 at the test vector "normal case". -/
theorem registry_operations_total_witness :
    ∃ w : Validator,
      NewValidatorFromDeposit samplePubkey sampleEth1Credentials 32000000000
          1000000000 32000000000 = .ok w ∧ w.WellFormed := by
  have h := registry_operations_total samplePubkey sampleEth1Credentials
    32000000000 1000000000 32000000000 sampleValidator 10 32000000000
    32000000000
  obtain ⟨w, hw⟩ := h.1.mpr (by decide)
  exact ⟨w, hw, h.2.1 w hw⟩

/-- C12: `ValidatePayload` returns the nil-block-body error when the body is
absent (`nil`, or `IsNil()` true) and the nil-payload error when the body is
present and its payload is absent; this holds for every state, so no state
read contributes to the result. -/
theorem ValidatePayload_nil_checks (pv : PayloadValidator)
    (st : BeaconState) :
    pv.ValidatePayload st none = .ok (some .ErrNilBlkBody) ∧
    (∀ body : BeaconBlockBody, body.IsNil = true →
      pv.ValidatePayload st (some body) = .ok (some .ErrNilBlkBody)) ∧
    (∀ body : BeaconBlockBody, body.IsNil = false →
      body.GetExecutionPayload = none →
      pv.ValidatePayload st (some body) = .ok (some .ErrNilPayload)) ∧
    (∀ (body : BeaconBlockBody) (payload : ExecutionPayload),
      body.IsNil = false → body.GetExecutionPayload = some payload →
      payload.IsNil = true →
      pv.ValidatePayload st (some body) = .ok (some .ErrNilPayload)) :=
  ⟨rfl, ValidatePayload_body_isNil pv st, ValidatePayload_payload_nil pv st,
    ValidatePayload_payload_isNil pv st⟩

/-- Instance of C12 on a state whose every read fails. -/
theorem ValidatePayload_nil_checks_witness :
    failingState.GetSlot = .error ⟨"slot unavailable"⟩ ∧
    (NewPayloadValidator sampleConfig).ValidatePayload failingState none =
      .ok (some .ErrNilBlkBody) ∧
    (NewPayloadValidator sampleConfig).ValidatePayload failingState
      (some sampleNilBody) = .ok (some .ErrNilBlkBody) ∧
    (NewPayloadValidator sampleConfig).ValidatePayload failingState
      (some sampleBodyWithoutPayload) = .ok (some .ErrNilPayload) ∧
    (NewPayloadValidator sampleConfig).ValidatePayload failingState
      (some sampleBodyWithNilPayload) = .ok (some .ErrNilPayload) :=
  have h := ValidatePayload_nil_checks (NewPayloadValidator sampleConfig)
    failingState
  ⟨rfl, h.1, h.2.1 sampleNilBody rfl,
    h.2.2.1 sampleBodyWithoutPayload rfl rfl,
    h.2.2.2 sampleBodyWithNilPayload { samplePayload with IsNil := true }
      rfl rfl rfl⟩

/-- C13: with body and payload present and the reads succeeding,
`ValidatePayload` returns the parent-hash error exactly when the parent hash
of the payload differs from the safe hash. At slot 0 or 1 the safe hash is the
eth1 block hash of the state, and the result does not depend on what
`GetLatestExecutionPayload` returns; from slot 2 on the safe hash is the block
hash of the latest execution payload. -/
theorem ValidatePayload_parent_hash_check (pv : PayloadValidator)
    (st : BeaconState) (body : BeaconBlockBody) (payload : ExecutionPayload)
    (hb : body.IsNil = false) (hp : body.GetExecutionPayload = some payload)
    (hpn : payload.IsNil = false) (slot : Slot)
    (hslot : st.GetSlot = .ok slot) :
    (slot ≤ 1 → ∀ eth1Hash : Hash, st.GetEth1BlockHash = .ok eth1Hash →
      ((∃ a b : Hash, pv.ValidatePayload st (some body) =
          .ok (some (.parentNotFinalized a b))) ↔
        payload.GetParentHash ≠ eth1Hash) ∧
      (payload.GetParentHash ≠ eth1Hash →
        pv.ValidatePayload st (some body) =
          .ok (some (.parentNotFinalized payload.GetParentHash eth1Hash))) ∧
      ∀ r : Except GoError ExecutionPayload,
        pv.ValidatePayload { st with GetLatestExecutionPayload := r }
            (some body) =
          pv.ValidatePayload st (some body)) ∧
    (2 ≤ slot → ∀ latest : ExecutionPayload,
      st.GetLatestExecutionPayload = .ok latest →
      ((∃ a b : Hash, pv.ValidatePayload st (some body) =
          .ok (some (.parentNotFinalized a b))) ↔
        payload.GetParentHash ≠ latest.GetBlockHash) ∧
      (payload.GetParentHash ≠ latest.GetBlockHash →
        pv.ValidatePayload st (some body) =
          .ok (some
            (.parentNotFinalized payload.GetParentHash
              latest.GetBlockHash)))) := by
  have key : ∀ safeHash : Hash, safeHashOf st slot = .ok safeHash →
      ((∃ a b : Hash, pv.ValidatePayload st (some body) =
          .ok (some (.parentNotFinalized a b))) ↔
        payload.GetParentHash ≠ safeHash) ∧
      (payload.GetParentHash ≠ safeHash →
        pv.ValidatePayload st (some body) =
          .ok (some (.parentNotFinalized payload.GetParentHash safeHash))) := by
    intro safeHash hsafe
    have hmis := ValidatePayload_parent_mismatch pv st body payload hb hp hpn
      slot hslot safeHash hsafe
    refine ⟨⟨?_, fun hne => ⟨_, _, hmis hne⟩⟩, hmis⟩
    rintro ⟨a, b, hab⟩ heq
    exact ValidatePayload_parent_match pv st body payload hb hp hpn slot hslot
      safeHash hsafe heq a b hab
  constructor
  · intro hle eth1Hash heth
    have hsafe : safeHashOf st slot = .ok eth1Hash := by
      rw [safeHashOf_genesis st slot hle, heth]
    refine ⟨(key eth1Hash hsafe).1, (key eth1Hash hsafe).2, ?_⟩
    intro r
    simp only [PayloadValidator.ValidatePayload, hslot, safeHashOf, hle,
      if_true]
  · intro hge latest hlatest
    exact key latest.GetBlockHash (safeHashOf_later st slot hge latest hlatest)

/-- Instance of C13: at slot 1 the payload's parent hash `A` is compared with
the eth1 block hash `B` and rejected, although the latest execution payload
has block hash `A`; at slot 70 it is compared with the latest block hash `A`
and the parent-hash error does not arise. -/
theorem ValidatePayload_parent_hash_check_witness :
    (NewPayloadValidator sampleConfig).ValidatePayload sampleGenesisState
        (some sampleBody) =
      .ok (some (.parentNotFinalized sampleHashA sampleHashB)) ∧
    ¬ ∃ a b : Hash,
      (NewPayloadValidator sampleConfig).ValidatePayload sampleState
        (some sampleBody) = .ok (some (.parentNotFinalized a b)) :=
  ⟨((ValidatePayload_parent_hash_check (NewPayloadValidator sampleConfig)
      sampleGenesisState sampleBody samplePayload rfl rfl rfl 1 rfl).1
      (by decide) sampleHashB rfl).2.1 (by decide),
    fun h =>
      (((ValidatePayload_parent_hash_check (NewPayloadValidator sampleConfig)
        sampleState sampleBody samplePayload rfl rfl rfl 70 rfl).2
        (by decide) sampleLatestPayload rfl).1.mp h) rfl⟩

/-- C14: with body and payload present, the reads succeeding, the parent hash
equal to the safe hash and `EpochsPerHistoricalVector > 0`, `ValidatePayload`
returns the randao error exactly when `prev_randao` differs from the randao
mix of the state at index `SlotToEpoch(slot) mod EpochsPerHistoricalVector`. -/
theorem ValidatePayload_randao_check (pv : PayloadValidator)
    (st : BeaconState) (body : BeaconBlockBody) (payload : ExecutionPayload)
    (hb : body.IsNil = false) (hp : body.GetExecutionPayload = some payload)
    (hpn : payload.IsNil = false) (slot : Slot) (hslot : st.GetSlot = .ok slot)
    (safeHash : Hash) (hsafe : safeHashOf st slot = .ok safeHash)
    (heq : payload.GetParentHash = safeHash)
    (hE : 0 < pv.cfg.EpochsPerHistoricalVector) (mix : Bytes32)
    (hmix : st.GetRandaoMixAtIndex
        (pv.cfg.SlotToEpoch slot % pv.cfg.EpochsPerHistoricalVector) =
      .ok mix) :
    ((∃ a b : Bytes32, pv.ValidatePayload st (some body) =
        .ok (some (.prevRandaoMismatch a b))) ↔
      payload.GetPrevRandao ≠ mix) ∧
    (payload.GetPrevRandao ≠ mix →
      pv.ValidatePayload st (some body) =
        .ok (some (.prevRandaoMismatch mix payload.GetPrevRandao))) := by
  have hrun := ValidatePayload_after_reads pv st body payload hb hp hpn slot
    hslot safeHash hsafe heq hE mix hmix
  have hmis : payload.GetPrevRandao ≠ mix →
      pv.ValidatePayload st (some body) =
        .ok (some (.prevRandaoMismatch mix payload.GetPrevRandao)) := by
    intro hne
    rw [hrun, if_pos hne]
  refine ⟨⟨?_, fun hne => ⟨_, _, hmis hne⟩⟩, hmis⟩
  rintro ⟨a, b, hab⟩ hr
  rw [hrun, if_neg (not_not.mpr hr)] at hab
  split_ifs at hab <;> cases hab

/-- Instance of C14: at slot 70 (epoch 2, index `2 mod 8 = 2`) a payload with
randao `0x22..` is rejected against the mix `0x11..` stored at index 2. -/
theorem ValidatePayload_randao_check_witness :
    0 < sampleConfig.EpochsPerHistoricalVector ∧
    sampleState.GetRandaoMixAtIndex (sampleConfig.SlotToEpoch 70 % 8) =
      .ok sampleMix ∧
    (NewPayloadValidator sampleConfig).ValidatePayload sampleState
        (some { sampleBody with
          GetExecutionPayload :=
            some { samplePayload with GetPrevRandao := sampleOtherMix } }) =
      .ok (some (.prevRandaoMismatch sampleMix sampleOtherMix)) :=
  ⟨by decide, rfl,
    (ValidatePayload_randao_check (NewPayloadValidator sampleConfig)
      sampleState
      { sampleBody with
        GetExecutionPayload :=
          some { samplePayload with GetPrevRandao := sampleOtherMix } }
      { samplePayload with GetPrevRandao := sampleOtherMix } rfl rfl rfl 70
      rfl sampleHashA rfl rfl (by decide) sampleMix rfl).2 (by decide)⟩

/-- C15: for a body that passes the presence, parent-hash and randao checks,
`ValidatePayload` returns the blob-commitment error exactly when the number of
blob KZG commitments is strictly greater than `MaxBlobsPerBlock`: exactly
`MaxBlobsPerBlock` commitments do not raise it, `MaxBlobsPerBlock + 1` do. -/
theorem ValidatePayload_blob_check (pv : PayloadValidator)
    (st : BeaconState) (body : BeaconBlockBody) (payload : ExecutionPayload)
    (hb : body.IsNil = false) (hp : body.GetExecutionPayload = some payload)
    (hpn : payload.IsNil = false) (slot : Slot) (hslot : st.GetSlot = .ok slot)
    (safeHash : Hash) (hsafe : safeHashOf st slot = .ok safeHash)
    (heq : payload.GetParentHash = safeHash)
    (hE : 0 < pv.cfg.EpochsPerHistoricalVector) (mix : Bytes32)
    (hmix : st.GetRandaoMixAtIndex
        (pv.cfg.SlotToEpoch slot % pv.cfg.EpochsPerHistoricalVector) =
      .ok mix)
    (hr : payload.GetPrevRandao = mix) :
    ((∃ a b : Nat, pv.ValidatePayload st (some body) =
        .ok (some (.tooManyBlobKzgCommitments a b))) ↔
      pv.cfg.MaxBlobsPerBlock < body.GetBlobKzgCommitments.length) ∧
    (pv.cfg.MaxBlobsPerBlock < body.GetBlobKzgCommitments.length →
      pv.ValidatePayload st (some body) =
        .ok (some
          (.tooManyBlobKzgCommitments pv.cfg.MaxBlobsPerBlock
            body.GetBlobKzgCommitments.length))) ∧
    (body.GetBlobKzgCommitments.length = pv.cfg.MaxBlobsPerBlock →
      ¬ ∃ a b : Nat, pv.ValidatePayload st (some body) =
        .ok (some (.tooManyBlobKzgCommitments a b))) ∧
    (body.GetBlobKzgCommitments.length = pv.cfg.MaxBlobsPerBlock + 1 →
      pv.ValidatePayload st (some body) =
        .ok (some
          (.tooManyBlobKzgCommitments pv.cfg.MaxBlobsPerBlock
            (pv.cfg.MaxBlobsPerBlock + 1)))) := by
  have hrun := ValidatePayload_after_reads pv st body payload hb hp hpn slot
    hslot safeHash hsafe heq hE mix hmix
  rw [if_neg (not_not.mpr hr)] at hrun
  have hmis : pv.cfg.MaxBlobsPerBlock < body.GetBlobKzgCommitments.length →
      pv.ValidatePayload st (some body) =
        .ok (some
          (.tooManyBlobKzgCommitments pv.cfg.MaxBlobsPerBlock
            body.GetBlobKzgCommitments.length)) := by
    intro hgt
    rw [hrun, if_pos hgt]
  have hiff : (∃ a b : Nat, pv.ValidatePayload st (some body) =
        .ok (some (.tooManyBlobKzgCommitments a b))) ↔
      pv.cfg.MaxBlobsPerBlock < body.GetBlobKzgCommitments.length := by
    refine ⟨?_, fun hgt => ⟨_, _, hmis hgt⟩⟩
    rintro ⟨a, b, hab⟩
    by_contra hle
    rw [hrun, if_neg hle] at hab
    split_ifs at hab <;> cases hab
  refine ⟨hiff, hmis, ?_, ?_⟩
  · intro hlen hex
    have hlt := hiff.mp hex
    rw [hlen] at hlt
    exact Nat.lt_irrefl _ hlt
  · intro hlen
    have h := hmis (by rw [hlen]; exact Nat.lt_succ_self _)
    rw [hlen] at h
    exact h

/-- Instance of C15 with `MaxBlobsPerBlock = 2`: three commitments are
rejected. -/
theorem ValidatePayload_blob_check_witness :
    sampleThreeBlobBody.GetBlobKzgCommitments.length =
      sampleConfig.MaxBlobsPerBlock + 1 ∧
    (NewPayloadValidator sampleConfig).ValidatePayload sampleState
        (some sampleThreeBlobBody) =
      .ok (some (.tooManyBlobKzgCommitments 2 3)) :=
  ⟨rfl,
    (ValidatePayload_blob_check (NewPayloadValidator sampleConfig)
      sampleState sampleThreeBlobBody samplePayload rfl rfl rfl 70 rfl
      sampleHashA rfl rfl (by decide) sampleMix rfl rfl).2.2.2 rfl⟩

/-- C16: for a body that passes the presence, parent-hash, randao and
blob-count checks, `ValidatePayload` returns the withdrawals error exactly
when the number of withdrawals is strictly greater than
`MaxWithdrawalsPerPayload`: exactly `MaxWithdrawalsPerPayload` withdrawals are
accepted, `MaxWithdrawalsPerPayload + 1` are rejected. -/
theorem ValidatePayload_withdrawals_check (pv : PayloadValidator)
    (st : BeaconState) (body : BeaconBlockBody) (payload : ExecutionPayload)
    (hb : body.IsNil = false) (hp : body.GetExecutionPayload = some payload)
    (hpn : payload.IsNil = false) (slot : Slot) (hslot : st.GetSlot = .ok slot)
    (safeHash : Hash) (hsafe : safeHashOf st slot = .ok safeHash)
    (heq : payload.GetParentHash = safeHash)
    (hE : 0 < pv.cfg.EpochsPerHistoricalVector) (mix : Bytes32)
    (hmix : st.GetRandaoMixAtIndex
        (pv.cfg.SlotToEpoch slot % pv.cfg.EpochsPerHistoricalVector) =
      .ok mix)
    (hr : payload.GetPrevRandao = mix)
    (hblob : body.GetBlobKzgCommitments.length ≤ pv.cfg.MaxBlobsPerBlock) :
    ((∃ a b : Nat, pv.ValidatePayload st (some body) =
        .ok (some (.tooManyWithdrawals a b))) ↔
      pv.cfg.MaxWithdrawalsPerPayload < payload.GetWithdrawals.length) ∧
    (pv.cfg.MaxWithdrawalsPerPayload < payload.GetWithdrawals.length →
      pv.ValidatePayload st (some body) =
        .ok (some
          (.tooManyWithdrawals pv.cfg.MaxWithdrawalsPerPayload
            payload.GetWithdrawals.length))) ∧
    (payload.GetWithdrawals.length = pv.cfg.MaxWithdrawalsPerPayload →
      pv.ValidatePayload st (some body) = .ok none) ∧
    (payload.GetWithdrawals.length = pv.cfg.MaxWithdrawalsPerPayload + 1 →
      pv.ValidatePayload st (some body) =
        .ok (some
          (.tooManyWithdrawals pv.cfg.MaxWithdrawalsPerPayload
            (pv.cfg.MaxWithdrawalsPerPayload + 1)))) := by
  have hrun := ValidatePayload_after_reads pv st body payload hb hp hpn slot
    hslot safeHash hsafe heq hE mix hmix
  rw [if_neg (not_not.mpr hr), if_neg (Nat.not_lt.mpr hblob)] at hrun
  have hmis :
      pv.cfg.MaxWithdrawalsPerPayload < payload.GetWithdrawals.length →
      pv.ValidatePayload st (some body) =
        .ok (some
          (.tooManyWithdrawals pv.cfg.MaxWithdrawalsPerPayload
            payload.GetWithdrawals.length)) := by
    intro hgt
    rw [hrun, if_pos hgt]
  have hacc :
      payload.GetWithdrawals.length ≤ pv.cfg.MaxWithdrawalsPerPayload →
      pv.ValidatePayload st (some body) = .ok none := by
    intro hle
    rw [hrun, if_neg (Nat.not_lt.mpr hle)]
  refine ⟨⟨?_, fun hgt => ⟨_, _, hmis hgt⟩⟩, hmis, ?_, ?_⟩
  · rintro ⟨a, b, hab⟩
    by_contra hle
    rw [hacc (Nat.le_of_not_lt hle)] at hab
    cases hab
  · intro hlen
    exact hacc (Nat.le_of_eq hlen)
  · intro hlen
    have h := hmis (by rw [hlen]; exact Nat.lt_succ_self _)
    rw [hlen] at h
    exact h

/-- Instance of C16 with `MaxWithdrawalsPerPayload = 2`: two withdrawals are
accepted and three are rejected. -/
theorem ValidatePayload_withdrawals_check_witness :
    samplePayload.GetWithdrawals.length =
      sampleConfig.MaxWithdrawalsPerPayload ∧
    (NewPayloadValidator sampleConfig).ValidatePayload sampleState
      (some sampleBody) = .ok none ∧
    (NewPayloadValidator sampleConfig).ValidatePayload sampleState
        (some sampleThreeWithdrawalBody) =
      .ok (some (.tooManyWithdrawals 2 3)) :=
  ⟨rfl,
    (ValidatePayload_withdrawals_check (NewPayloadValidator sampleConfig)
      sampleState sampleBody samplePayload rfl rfl rfl 70 rfl sampleHashA rfl
      rfl (by decide) sampleMix rfl rfl (by decide)).2.2.1 rfl,
    (ValidatePayload_withdrawals_check (NewPayloadValidator sampleConfig)
      sampleState sampleThreeWithdrawalBody
      { samplePayload with
        GetWithdrawals :=
          [sampleWithdrawal, sampleWithdrawal, sampleWithdrawal] }
      rfl rfl rfl 70 rfl sampleHashA rfl rfl (by decide) sampleMix rfl rfl
      (by decide)).2.2.2 rfl⟩

/-- C17, as stated, fails: with `EpochsPerHistoricalVector = 0` every listed
condition holds (body and payload present, the slot and the latest payload
read, the randao read succeeding at every index with the payload's
`prev_randao`, the parent hash equal to the safe hash, two commitments and two
withdrawals against maxima of two) and yet `ValidatePayload` does not return
success: the modulo that computes the randao index panics. -/
theorem ValidatePayload_success_counterexample :
    sampleBody.IsNil = false ∧
    sampleBody.GetExecutionPayload = some samplePayload ∧
    samplePayload.IsNil = false ∧
    sampleConstantMixState.GetSlot = .ok 70 ∧
    safeHashOf sampleConstantMixState 70 = .ok sampleHashA ∧
    (∀ i : Nat,
      sampleConstantMixState.GetRandaoMixAtIndex i = .ok sampleMix) ∧
    samplePayload.GetParentHash = sampleHashA ∧
    samplePayload.GetPrevRandao = sampleMix ∧
    sampleBody.GetBlobKzgCommitments.length ≤
      sampleZeroVectorConfig.MaxBlobsPerBlock ∧
    samplePayload.GetWithdrawals.length ≤
      sampleZeroVectorConfig.MaxWithdrawalsPerPayload ∧
    (NewPayloadValidator sampleZeroVectorConfig).ValidatePayload
        sampleConstantMixState (some sampleBody) =
      .error .integerDivideByZero ∧
    (NewPayloadValidator sampleZeroVectorConfig).ValidatePayload
        sampleConstantMixState (some sampleBody) ≠ .ok none := by
  have hrun : (NewPayloadValidator sampleZeroVectorConfig).ValidatePayload
      sampleConstantMixState (some sampleBody) =
        .error .integerDivideByZero :=
    ValidatePayload_zero_vector (NewPayloadValidator sampleZeroVectorConfig)
      sampleConstantMixState sampleBody samplePayload rfl rfl rfl 70 rfl
      sampleHashA rfl rfl rfl
  refine ⟨rfl, rfl, rfl, rfl, rfl, fun _ => rfl, rfl, rfl, by decide,
    by decide, hrun, ?_⟩
  rw [hrun]
  intro h
  cases h

/-- C17, amended: for every configuration with `EpochsPerHistoricalVector > 0`,
`ValidatePayload` returns success if and only if the body and its payload are
present, the reads of the slot, of the safe hash and of the randao mix at index
`SlotToEpoch(slot) mod EpochsPerHistoricalVector` succeed, the parent hash
equals the safe hash, `prev_randao` equals that mix, and the counts of blob
commitments and of withdrawals are within their maxima. -/
theorem ValidatePayload_success_iff (pv : PayloadValidator)
    (st : BeaconState) (body : Option BeaconBlockBody)
    (hE : 0 < pv.cfg.EpochsPerHistoricalVector) :
    pv.ValidatePayload st body = .ok none ↔
      ∃ (b : BeaconBlockBody) (payload : ExecutionPayload) (slot : Slot)
        (safeHash : Hash) (mix : Bytes32),
        body = some b ∧ b.IsNil = false ∧
        b.GetExecutionPayload = some payload ∧ payload.IsNil = false ∧
        st.GetSlot = .ok slot ∧ safeHashOf st slot = .ok safeHash ∧
        st.GetRandaoMixAtIndex
            (pv.cfg.SlotToEpoch slot % pv.cfg.EpochsPerHistoricalVector) =
          .ok mix ∧
        payload.GetParentHash = safeHash ∧ payload.GetPrevRandao = mix ∧
        b.GetBlobKzgCommitments.length ≤ pv.cfg.MaxBlobsPerBlock ∧
        payload.GetWithdrawals.length ≤ pv.cfg.MaxWithdrawalsPerPayload := by
  constructor
  · intro hok
    cases body with
    | none => cases hok
    | some b =>
      cases hb : b.IsNil with
      | true =>
        rw [ValidatePayload_body_isNil pv st b hb] at hok
        cases hok
      | false =>
        cases hp : b.GetExecutionPayload with
        | none =>
          rw [ValidatePayload_payload_nil pv st b hb hp] at hok
          cases hok
        | some payload =>
          cases hpn : payload.IsNil with
          | true =>
            rw [ValidatePayload_payload_isNil pv st b payload hb hp hpn]
              at hok
            cases hok
          | false =>
            cases hslot : st.GetSlot with
            | error err =>
              rw [ValidatePayload_slot_error pv st b payload hb hp hpn err
                hslot] at hok
              cases hok
            | ok slot =>
              cases hsafe : safeHashOf st slot with
              | error err =>
                rw [ValidatePayload_safeHash_error pv st b payload hb hp hpn
                  slot hslot err hsafe] at hok
                cases hok
              | ok safeHash =>
                by_cases heq : payload.GetParentHash = safeHash
                · cases hmix : st.GetRandaoMixAtIndex
                      (pv.cfg.SlotToEpoch slot %
                        pv.cfg.EpochsPerHistoricalVector) with
                  | error err =>
                    rw [ValidatePayload_mix_error pv st b payload hb hp hpn
                      slot hslot safeHash hsafe heq hE err hmix] at hok
                    cases hok
                  | ok mix =>
                    rw [ValidatePayload_after_reads pv st b payload hb hp hpn
                      slot hslot safeHash hsafe heq hE mix hmix] at hok
                    split_ifs at hok with h1 h2 h3
                    · cases hok
                    · cases hok
                    · cases hok
                    · exact ⟨b, payload, slot, safeHash, mix, rfl, hb, hp,
                        hpn, rfl, hsafe, hmix, heq, not_not.mp h1,
                        Nat.le_of_not_lt h2, Nat.le_of_not_lt h3⟩
                · rw [ValidatePayload_parent_mismatch pv st b payload hb hp
                    hpn slot hslot safeHash hsafe heq] at hok
                  cases hok
  · rintro ⟨b, payload, slot, safeHash, mix, rfl, hb, hp, hpn, hslot, hsafe,
      hmix, heq, hr, hblob, hw⟩
    rw [ValidatePayload_after_reads pv st b payload hb hp hpn slot hslot
      safeHash hsafe heq hE mix hmix, if_neg (not_not.mpr hr),
      if_neg (Nat.not_lt.mpr hblob), if_neg (Nat.not_lt.mpr hw)]

/-- Instance of amended C17: the sample body is accepted at slot 70 under the
sample configuration, whose `EpochsPerHistoricalVector` is 8. -/
theorem ValidatePayload_success_iff_witness :
    0 < sampleConfig.EpochsPerHistoricalVector ∧
    (NewPayloadValidator sampleConfig).ValidatePayload sampleState
      (some sampleBody) = .ok none :=
  ⟨by decide,
    (ValidatePayload_success_iff (NewPayloadValidator sampleConfig)
      sampleState (some sampleBody) (by decide)).mpr
      ⟨sampleBody, samplePayload, 70, sampleHashA, sampleMix, rfl, rfl, rfl,
        rfl, rfl, rfl, rfl, rfl, rfl, by decide, by decide⟩⟩

/-- C18, as stated, fails: the error of the earliest failing check is not
returned when a state read or the index computation that precedes that check
does not succeed.

* With `EpochsPerHistoricalVector = 0`, a payload with a wrong randao (the
  state holds `0x11..` at every index, the payload `0x22..`) and three blob
  commitments against a maximum of two makes the function panic on the modulo
  instead of returning the randao error.
* With a failing read of the randao mix, a body with too many blob commitments
  and too many withdrawals gets the error of the read, not the blob error.
* With a failing read of the slot, or of the latest execution payload at slot
  70, a payload with a wrong parent hash and too many withdrawals gets the
  error of the read, not the parent-hash error. -/
theorem ValidatePayload_first_failure_counterexample :
    ((∀ i : Nat,
        sampleConstantMixState.GetRandaoMixAtIndex i = .ok sampleMix) ∧
      sampleBadRandaoBody.GetExecutionPayload =
        some { samplePayload with GetPrevRandao := sampleOtherMix } ∧
      sampleOtherMix ≠ sampleMix ∧
      sampleZeroVectorConfig.MaxBlobsPerBlock <
        sampleBadRandaoBody.GetBlobKzgCommitments.length ∧
      (NewPayloadValidator sampleZeroVectorConfig).ValidatePayload
          sampleConstantMixState (some sampleBadRandaoBody) =
        .error .integerDivideByZero) ∧
    (sampleConfig.MaxBlobsPerBlock <
        sampleOverfullBody.GetBlobKzgCommitments.length ∧
      (NewPayloadValidator sampleConfig).ValidatePayload
          sampleMixFailingState (some sampleOverfullBody) =
        .ok (some (.stateRead ⟨"randao mix unavailable"⟩))) ∧
    (sampleHashB ≠ sampleHashA ∧
      (NewPayloadValidator sampleConfig).ValidatePayload failingState
          (some sampleBadParentBody) =
        .ok (some (.stateRead ⟨"slot unavailable"⟩)) ∧
      (NewPayloadValidator sampleConfig).ValidatePayload
          samplePayloadFailingState (some sampleBadParentBody) =
        .ok (some (.stateRead ⟨"payload unavailable"⟩))) := by
  refine ⟨⟨fun _ => rfl, rfl, by decide, by decide, ?_⟩, ⟨by decide, ?_⟩,
    ⟨by decide, ?_, ?_⟩⟩
  · exact ValidatePayload_zero_vector
      (NewPayloadValidator sampleZeroVectorConfig) sampleConstantMixState
      sampleBadRandaoBody
      { samplePayload with GetPrevRandao := sampleOtherMix } rfl rfl rfl 70
      rfl sampleHashA rfl rfl rfl
  · exact ValidatePayload_mix_error (NewPayloadValidator sampleConfig)
      sampleMixFailingState sampleOverfullBody
      { samplePayload with
        GetWithdrawals :=
          [sampleWithdrawal, sampleWithdrawal, sampleWithdrawal] }
      rfl rfl rfl 70 rfl sampleHashA rfl rfl (by decide)
      ⟨"randao mix unavailable"⟩ rfl
  · exact ValidatePayload_slot_error (NewPayloadValidator sampleConfig)
      failingState sampleBadParentBody
      { samplePayload with
        GetParentHash := sampleHashB
        GetWithdrawals :=
          [sampleWithdrawal, sampleWithdrawal, sampleWithdrawal] }
      rfl rfl rfl ⟨"slot unavailable"⟩ rfl
  · exact ValidatePayload_safeHash_error (NewPayloadValidator sampleConfig)
      samplePayloadFailingState sampleBadParentBody
      { samplePayload with
        GetParentHash := sampleHashB
        GetWithdrawals :=
          [sampleWithdrawal, sampleWithdrawal, sampleWithdrawal] }
      rfl rfl rfl 70 rfl ⟨"payload unavailable"⟩ rfl

/-- C18, amended: when the reads that precede a check succeed (the slot and
the safe hash before the parent-hash check; from the randao check on also
`EpochsPerHistoricalVector > 0` and the read of the randao mix),
`ValidatePayload` returns the error of the earliest failing check in the order
body presence, payload presence, parent hash, randao, blob count, withdrawal
count. Each clause fixes only the checks before the failing one and the reads
they need, so it holds whatever the later checks would find. -/
theorem ValidatePayload_first_failure (pv : PayloadValidator)
    (st : BeaconState) :
    pv.ValidatePayload st none = .ok (some .ErrNilBlkBody) ∧
    (∀ body : BeaconBlockBody, body.IsNil = true →
      pv.ValidatePayload st (some body) = .ok (some .ErrNilBlkBody)) ∧
    (∀ body : BeaconBlockBody, body.IsNil = false →
      (body.GetExecutionPayload = none ∨
        ∃ payload : ExecutionPayload,
          body.GetExecutionPayload = some payload ∧ payload.IsNil = true) →
      pv.ValidatePayload st (some body) = .ok (some .ErrNilPayload)) ∧
    (∀ (body : BeaconBlockBody) (payload : ExecutionPayload) (slot : Slot)
        (safeHash : Hash),
      body.IsNil = false → body.GetExecutionPayload = some payload →
      payload.IsNil = false → st.GetSlot = .ok slot →
      safeHashOf st slot = .ok safeHash →
      (payload.GetParentHash ≠ safeHash →
        pv.ValidatePayload st (some body) =
          .ok (some (.parentNotFinalized payload.GetParentHash safeHash))) ∧
      (payload.GetParentHash = safeHash →
        0 < pv.cfg.EpochsPerHistoricalVector →
        ∀ mix : Bytes32,
          st.GetRandaoMixAtIndex
              (pv.cfg.SlotToEpoch slot % pv.cfg.EpochsPerHistoricalVector) =
            .ok mix →
          (payload.GetPrevRandao ≠ mix →
            pv.ValidatePayload st (some body) =
              .ok (some (.prevRandaoMismatch mix payload.GetPrevRandao))) ∧
          (payload.GetPrevRandao = mix →
            (pv.cfg.MaxBlobsPerBlock < body.GetBlobKzgCommitments.length →
              pv.ValidatePayload st (some body) =
                .ok (some
                  (.tooManyBlobKzgCommitments pv.cfg.MaxBlobsPerBlock
                    body.GetBlobKzgCommitments.length))) ∧
            (body.GetBlobKzgCommitments.length ≤ pv.cfg.MaxBlobsPerBlock →
              pv.cfg.MaxWithdrawalsPerPayload <
                payload.GetWithdrawals.length →
              pv.ValidatePayload st (some body) =
                .ok (some
                  (.tooManyWithdrawals pv.cfg.MaxWithdrawalsPerPayload
                    payload.GetWithdrawals.length)))))) := by
  refine ⟨rfl, ValidatePayload_body_isNil pv st, ?_, ?_⟩
  · rintro body hb (hp | ⟨payload, hp, hpn⟩)
    · exact ValidatePayload_payload_nil pv st body hb hp
    · exact ValidatePayload_payload_isNil pv st body payload hb hp hpn
  · intro body payload slot safeHash hb hp hpn hslot hsafe
    refine ⟨ValidatePayload_parent_mismatch pv st body payload hb hp hpn slot
      hslot safeHash hsafe, ?_⟩
    intro heq hE mix hmix
    have hrun := ValidatePayload_after_reads pv st body payload hb hp hpn slot
      hslot safeHash hsafe heq hE mix hmix
    refine ⟨?_, ?_⟩
    · intro hne
      rw [hrun, if_pos hne]
    · intro hr
      rw [if_neg (not_not.mpr hr)] at hrun
      refine ⟨?_, ?_⟩
      · intro hgt
        rw [hrun, if_pos hgt]
      · intro hle hgt
        rw [hrun, if_neg (Nat.not_lt.mpr hle), if_pos hgt]

/-- Instance of amended C18 on the sample state, whose reads succeed, with
`EpochsPerHistoricalVector = 8`: a payload with a wrong parent hash and too many
withdrawals yields the parent-hash error, and one with a wrong randao and too
many blob commitments yields the randao error. -/
theorem ValidatePayload_first_failure_witness :
    (sampleConfig.MaxWithdrawalsPerPayload < 3 ∧
      (NewPayloadValidator sampleConfig).ValidatePayload sampleState
          (some sampleBadParentBody) =
        .ok (some (.parentNotFinalized sampleHashB sampleHashA))) ∧
    (sampleConfig.MaxBlobsPerBlock <
        sampleBadRandaoBody.GetBlobKzgCommitments.length ∧
      (NewPayloadValidator sampleConfig).ValidatePayload sampleState
          (some sampleBadRandaoBody) =
        .ok (some (.prevRandaoMismatch sampleMix sampleOtherMix))) :=
  ⟨⟨by decide,
      ((ValidatePayload_first_failure (NewPayloadValidator sampleConfig)
        sampleState).2.2.2 sampleBadParentBody
        { samplePayload with
          GetParentHash := sampleHashB
          GetWithdrawals :=
            [sampleWithdrawal, sampleWithdrawal, sampleWithdrawal] }
        70 sampleHashA rfl rfl rfl rfl rfl).1 (by decide)⟩,
    ⟨by decide,
      (((ValidatePayload_first_failure (NewPayloadValidator sampleConfig)
        sampleState).2.2.2 sampleBadRandaoBody
        { samplePayload with GetPrevRandao := sampleOtherMix }
        70 sampleHashA rfl rfl rfl rfl rfl).2 rfl (by decide) sampleMix
        rfl).1 (by decide)⟩⟩

/-- C19, as stated, fails. At slot 1 the safe hash is the eth1 block hash of
the state, so a payload whose parent hash equals the block hash `A` of the
latest execution payload, with the right randao and counts within the maxima,
is rejected when the eth1 block hash is `B`. And with
`EpochsPerHistoricalVector = 0` the same payload at slot 70 makes the function
panic instead of returning success. -/
theorem ValidatePayload_accepts_counterexample :
    (sampleGenesisState.GetSlot = .ok 1 ∧
      sampleGenesisState.GetEth1BlockHash = .ok sampleHashB ∧
      sampleGenesisState.GetLatestExecutionPayload = .ok sampleLatestPayload ∧
      (∀ i : Nat, sampleGenesisState.GetRandaoMixAtIndex i = .ok sampleMix) ∧
      sampleBody.IsNil = false ∧
      sampleBody.GetExecutionPayload = some samplePayload ∧
      samplePayload.IsNil = false ∧
      samplePayload.GetParentHash = sampleLatestPayload.GetBlockHash ∧
      samplePayload.GetPrevRandao = sampleMix ∧
      sampleBody.GetBlobKzgCommitments.length ≤
        sampleConfig.MaxBlobsPerBlock ∧
      samplePayload.GetWithdrawals.length ≤
        sampleConfig.MaxWithdrawalsPerPayload ∧
      0 < sampleConfig.EpochsPerHistoricalVector ∧
      (NewPayloadValidator sampleConfig).ValidatePayload sampleGenesisState
          (some sampleBody) =
        .ok (some (.parentNotFinalized sampleHashA sampleHashB))) ∧
    (sampleConstantMixState.GetSlot = .ok 70 ∧
      sampleConstantMixState.GetLatestExecutionPayload =
        .ok sampleLatestPayload ∧
      (∀ i : Nat,
        sampleConstantMixState.GetRandaoMixAtIndex i = .ok sampleMix) ∧
      sampleZeroVectorConfig.EpochsPerHistoricalVector = 0 ∧
      (NewPayloadValidator sampleZeroVectorConfig).ValidatePayload
          sampleConstantMixState (some sampleBody) =
        .error .integerDivideByZero) := by
  refine ⟨⟨rfl, rfl, rfl, fun _ => rfl, rfl, rfl, rfl, rfl, rfl, by decide,
    by decide, by decide, ?_⟩, ⟨rfl, rfl, fun _ => rfl, rfl, ?_⟩⟩
  · exact ValidatePayload_parent_mismatch (NewPayloadValidator sampleConfig)
      sampleGenesisState sampleBody samplePayload rfl rfl rfl 1 rfl
      sampleHashB rfl (by decide)
  · exact ValidatePayload_zero_vector
      (NewPayloadValidator sampleZeroVectorConfig) sampleConstantMixState
      sampleBody samplePayload rfl rfl rfl 70 rfl sampleHashA rfl rfl rfl

/-- C19, amended: for every state at a slot of at least 2 whose reads succeed,
every configuration with `EpochsPerHistoricalVector > 0` and every present
body and payload, if the parent hash equals the block hash of the latest
execution payload of the state, `prev_randao` equals the randao mix at index
`SlotToEpoch(slot) mod EpochsPerHistoricalVector` and both counts are within
their maxima, then `ValidatePayload` returns success. -/
theorem ValidatePayload_accepts (pv : PayloadValidator)
    (st : BeaconState) (body : BeaconBlockBody) (payload : ExecutionPayload)
    (hb : body.IsNil = false) (hp : body.GetExecutionPayload = some payload)
    (hpn : payload.IsNil = false) (slot : Slot) (hslot : st.GetSlot = .ok slot)
    (hge : 2 ≤ slot) (latest : ExecutionPayload)
    (hlatest : st.GetLatestExecutionPayload = .ok latest)
    (heq : payload.GetParentHash = latest.GetBlockHash)
    (hE : 0 < pv.cfg.EpochsPerHistoricalVector) (mix : Bytes32)
    (hmix : st.GetRandaoMixAtIndex
        (pv.cfg.SlotToEpoch slot % pv.cfg.EpochsPerHistoricalVector) =
      .ok mix)
    (hr : payload.GetPrevRandao = mix)
    (hblob : body.GetBlobKzgCommitments.length ≤ pv.cfg.MaxBlobsPerBlock)
    (hw : payload.GetWithdrawals.length ≤ pv.cfg.MaxWithdrawalsPerPayload) :
    pv.ValidatePayload st (some body) = .ok none := by
  rw [ValidatePayload_after_reads pv st body payload hb hp hpn slot hslot
    latest.GetBlockHash (safeHashOf_later st slot hge latest hlatest) heq hE
    mix hmix, if_neg (not_not.mpr hr), if_neg (Nat.not_lt.mpr hblob),
    if_neg (Nat.not_lt.mpr hw)]

/-- Instance of amended C19 at slot 70 of the sample state. -/
theorem ValidatePayload_accepts_witness :
    2 ≤ 70 ∧ 0 < sampleConfig.EpochsPerHistoricalVector ∧
    (NewPayloadValidator sampleConfig).ValidatePayload sampleState
      (some sampleBody) = .ok none :=
  ⟨by decide, by decide,
    ValidatePayload_accepts (NewPayloadValidator sampleConfig) sampleState
      sampleBody samplePayload rfl rfl rfl 70 rfl (by decide)
      sampleLatestPayload rfl rfl (by decide) sampleMix rfl rfl (by decide)
      (by decide)⟩

/-! ## Slices, arrays and `ComputeDomain` -/

/-- The slice of an `[n]byte` has length `n`. -/
theorem sliceOf_length {n : Nat} (a : Fin n → Byte) :
    (sliceOf a).length = n := by
  unfold sliceOf
  exact List.length_ofFn a

/-- Element `i` of the slice of an array is element `i` of the array. -/
theorem sliceOf_getElem {n : Nat} (a : Fin n → Byte) (i : Nat)
    (h : i < (sliceOf a).length) :
    (sliceOf a)[i] = a ⟨i, by rw [sliceOf_length] at h; exact h⟩ := by
  unfold sliceOf
  rw [List.getElem_ofFn]

/-- Converting a slice that is long enough to an array does not panic and
keeps its first `n` elements. -/
theorem sliceToArray_ok (n : Nat) (s : List Byte) (h : n ≤ s.length) :
    ∃ a : Fin n → Byte, sliceToArray n s = .ok a ∧ sliceOf a = s.take n ∧
      ∀ i : Fin n, a i = s.get ⟨i.val, Nat.lt_of_lt_of_le i.isLt h⟩ := by
  refine ⟨fun i => s.get ⟨i.val, Nat.lt_of_lt_of_le i.isLt h⟩, ?_, ?_,
    fun _ => rfl⟩
  · unfold sliceToArray
    rw [dif_pos h]
  · unfold sliceOf
    apply List.ext_getElem
    · rw [List.length_ofFn, List.length_take, Nat.min_eq_left h]
    · intro i h1 h2
      rw [List.getElem_ofFn, List.getElem_take]
      rfl

/-- The slice `append(domainType[:], forkDataRoot[:28]...)` has 32 bytes. -/
theorem domain_slice_length (domainType : DomainType) (root : Root) :
    (sliceOf domainType ++ (sliceOf root).take 28).length = 32 := by
  rw [List.length_append, List.length_take, sliceOf_length, sliceOf_length]
  rfl

/-- When hashing succeeds, `ComputeDomain` returns, without error or panic,
the array of the slice `append(domainType[:], forkDataRoot[:28]...)`. -/
theorem ComputeDomain_ok (HashTreeRoot : ForkData → Except GoError Root)
    (fd : ForkData) (domainType : DomainType) (root : Root)
    (h : HashTreeRoot fd = .ok root) :
    ∃ d : Domain,
      fd.ComputeDomain HashTreeRoot domainType = .ok (d, none) ∧
      sliceOf d = sliceOf domainType ++ (sliceOf root).take 28 ∧
      ∀ i : Fin 32,
        d i = (sliceOf domainType ++ (sliceOf root).take 28).get
          ⟨i.val, by rw [domain_slice_length]; exact i.isLt⟩ := by
  have hlen := domain_slice_length domainType root
  obtain ⟨d, hd, hslice, hget⟩ := sliceToArray_ok 32
    (sliceOf domainType ++ (sliceOf root).take 28) (Nat.le_of_eq hlen.symm)
  refine ⟨d, ?_, ?_, hget⟩
  · unfold ForkData.ComputeDomain
    rw [h]
    simp only [hd]
  · rw [hslice, List.take_of_length_le (Nat.le_of_eq hlen)]

/-- C20: when the hash tree root of the fork data is computed successfully,
`ComputeDomain` returns a domain whose bytes 0..3 are the domain type and
whose bytes 4..31 are bytes 0..27 of that root; the first four bytes of the
domain give back the domain type and the remaining 28 give back the truncated
root. -/
theorem ComputeDomain_layout (HashTreeRoot : ForkData → Except GoError Root)
    (fd : ForkData) (domainType : DomainType) (root : Root)
    (h : HashTreeRoot fd = .ok root) :
    ∃ d : Domain,
      fd.ComputeDomain HashTreeRoot domainType = .ok (d, none) ∧
      (sliceOf d).length = 32 ∧
      (∀ i : Fin 4, d (Fin.castLE (by decide) i) = domainType i) ∧
      (∀ j : Fin 28, d (Fin.natAdd 4 j) = root (Fin.castLE (by decide) j)) ∧
      (sliceOf d).take 4 = sliceOf domainType ∧
      (sliceOf d).drop 4 = (sliceOf root).take 28 := by
  obtain ⟨d, hd, hslice, hget⟩ :=
    ComputeDomain_ok HashTreeRoot fd domainType root h
  refine ⟨d, hd, sliceOf_length d, ?_, ?_, ?_, ?_⟩
  · intro i
    rw [hget, List.get_eq_getElem]
    simp only [Fin.coe_castLE]
    rw [List.getElem_append_left (by rw [sliceOf_length]; exact i.isLt),
      sliceOf_getElem]
  · intro j
    rw [hget, List.get_eq_getElem]
    simp only [Fin.coe_natAdd]
    rw [List.getElem_append_right (by rw [sliceOf_length]; omega),
      List.getElem_take, sliceOf_getElem]
    congr 1
    apply Fin.ext
    simp only [Fin.coe_castLE, sliceOf_length]
    omega
  · rw [hslice, List.take_left' (sliceOf_length domainType)]
  · rw [hslice, List.drop_left' (sliceOf_length domainType)]

/-- Instance of C20 on the sample fork data and the domain type
`07 00 00 00`. -/
theorem ComputeDomain_layout_witness :
    ∃ d : Domain,
      sampleForkData.ComputeDomain sampleHashTreeRoot sampleDomainType =
        .ok (d, none) ∧
      (sliceOf d).length = 32 ∧
      (∀ i : Fin 4, d (Fin.castLE (by decide) i) = sampleDomainType i) ∧
      (∀ j : Fin 28, d (Fin.natAdd 4 j) =
        (fun i : Fin 32 => if i = 0 then (1 : Byte) else 0xbb)
          (Fin.castLE (by decide) j)) ∧
      (sliceOf d).take 4 = sliceOf sampleDomainType ∧
      (sliceOf d).drop 4 =
        (sliceOf
          (fun i : Fin 32 => if i = 0 then (1 : Byte) else 0xbb)).take 28 :=
  ComputeDomain_layout sampleHashTreeRoot sampleForkData sampleDomainType
    (fun i => if i = 0 then 1 else 0xbb)
    rfl

/-- The domain of the sample fork data as a literal vector: the domain type
`07 00 00 00`, then the first 28 bytes of the root, `01 bb bb ..`. -/
theorem test_ComputeDomain_vector :
    (sampleForkData.ComputeDomain sampleHashTreeRoot sampleDomainType).map
        (fun r => (sliceOf r.1, r.2)) =
      .ok
        ([7, 0, 0, 0, 1, 0xbb, 0xbb, 0xbb, 0xbb, 0xbb, 0xbb, 0xbb, 0xbb, 0xbb,
          0xbb, 0xbb, 0xbb, 0xbb, 0xbb, 0xbb, 0xbb, 0xbb, 0xbb, 0xbb, 0xbb,
          0xbb, 0xbb, 0xbb, 0xbb, 0xbb, 0xbb, 0xbb], none) :=
  rfl

/-- When hashing fails, `ComputeDomain` returns the zero domain and the error
of the hashing. -/
theorem ComputeDomain_error (HashTreeRoot : ForkData → Except GoError Root)
    (fd : ForkData) (domainType : DomainType) (err : GoError)
    (h : HashTreeRoot fd = .error err) :
    fd.ComputeDomain HashTreeRoot domainType =
      .ok (zeroBytes 32, some err) := by
  unfold ForkData.ComputeDomain
  rw [h]

/-- When `ComputeDomain` returns the domain `d` without error, the signing
root of `ComputeRandaoSigningRoot` is decided by the primitive at `d`. -/
theorem ComputeRandaoSigningRoot_of_domain
    (HashTreeRoot : ForkData → Except GoError Root)
    (ComputeSigningRootUInt64 : Nat → Domain → Except GoError Root)
    (fd : ForkData) (domainType : DomainType) (epoch : Epoch) (d : Domain)
    (hd : fd.ComputeDomain HashTreeRoot domainType = .ok (d, none)) :
    fd.ComputeRandaoSigningRoot HashTreeRoot ComputeSigningRootUInt64
        domainType epoch =
      match ComputeSigningRootUInt64 epoch d with
      | .error err =>
        .ok (zeroBytes 32,
          some (wrapError "failed to compute signing root" err))
      | .ok signingRoot => .ok (signingRoot, none) := by
  unfold ForkData.ComputeRandaoSigningRoot
  rw [hd]

/-- When hashing the fork data fails, `ComputeRandaoSigningRoot` returns the
zero root and the error of the hashing. -/
theorem ComputeRandaoSigningRoot_of_hash_error
    (HashTreeRoot : ForkData → Except GoError Root)
    (ComputeSigningRootUInt64 : Nat → Domain → Except GoError Root)
    (fd : ForkData) (domainType : DomainType) (epoch : Epoch) (err : GoError)
    (h : HashTreeRoot fd = .error err) :
    fd.ComputeRandaoSigningRoot HashTreeRoot ComputeSigningRootUInt64
        domainType epoch = .ok (zeroBytes 32, some err) := by
  unfold ForkData.ComputeRandaoSigningRoot
  rw [ComputeDomain_error HashTreeRoot fd domainType err h]

/-! ## Claims about signing roots and hashing failures -/

/-- C21: when the hashing primitives succeed, `ComputeRandaoSigningRoot`
returns, without error, exactly the signing root that the primitive gives for
the epoch under the domain `ComputeDomain` returns for the same fork data and
domain type. -/
theorem ComputeRandaoSigningRoot_eq
    (HashTreeRoot : ForkData → Except GoError Root)
    (ComputeSigningRootUInt64 : Nat → Domain → Except GoError Root)
    (fd : ForkData) (domainType : DomainType) (epoch : Epoch) (root : Root)
    (h : HashTreeRoot fd = .ok root) :
    ∃ d : Domain,
      fd.ComputeDomain HashTreeRoot domainType = .ok (d, none) ∧
      ∀ signingRoot : Root,
        ComputeSigningRootUInt64 epoch d = .ok signingRoot →
        fd.ComputeRandaoSigningRoot HashTreeRoot ComputeSigningRootUInt64
          domainType epoch = .ok (signingRoot, none) := by
  obtain ⟨d, hd, -, -⟩ := ComputeDomain_ok HashTreeRoot fd domainType root h
  refine ⟨d, hd, ?_⟩
  intro signingRoot hs
  rw [ComputeRandaoSigningRoot_of_domain HashTreeRoot
    ComputeSigningRootUInt64 fd domainType epoch d hd, hs]

/-- Instance of C21 on the sample fork data at epoch 2. -/
theorem ComputeRandaoSigningRoot_eq_witness :
    ∃ d : Domain,
      sampleForkData.ComputeDomain sampleHashTreeRoot sampleDomainType =
        .ok (d, none) ∧
      sampleForkData.ComputeRandaoSigningRoot sampleHashTreeRoot
          sampleComputeSigningRoot sampleDomainType 2 =
        .ok (sampleSigningRootOf 2 d, none) := by
  obtain ⟨d, hd, hs⟩ := ComputeRandaoSigningRoot_eq sampleHashTreeRoot
    sampleComputeSigningRoot sampleForkData sampleDomainType 2
    (fun i => if i = 0 then 1 else 0xbb) rfl
  exact ⟨d, hd, hs (sampleSigningRootOf 2 d) rfl⟩

/-- C22: hashing failures are surfaced. `ComputeDomain` never panics, and it
returns an error exactly when hashing the fork data fails: the same error,
with the all-zero domain. `ComputeRandaoSigningRoot` returns an error exactly
when hashing the fork data fails (the same error) or the signing-root
primitive fails on the computed domain (its error, wrapped), and always with
the all-zero root. -/
theorem hashing_failures_surfaced
    (HashTreeRoot : ForkData → Except GoError Root)
    (ComputeSigningRootUInt64 : Nat → Domain → Except GoError Root)
    (fd : ForkData) (domainType : DomainType) (epoch : Epoch) :
    (∃ r : Domain × Option GoError,
      fd.ComputeDomain HashTreeRoot domainType = .ok r) ∧
    (∀ (d : Domain) (err : GoError),
      fd.ComputeDomain HashTreeRoot domainType = .ok (d, some err) ↔
        d = zeroBytes 32 ∧ HashTreeRoot fd = .error err) ∧
    (∃ r : Root × Option GoError,
      fd.ComputeRandaoSigningRoot HashTreeRoot ComputeSigningRootUInt64
        domainType epoch = .ok r) ∧
    (∀ (r : Root) (err : GoError),
      fd.ComputeRandaoSigningRoot HashTreeRoot ComputeSigningRootUInt64
          domainType epoch = .ok (r, some err) ↔
        r = zeroBytes 32 ∧
          (HashTreeRoot fd = .error err ∨
            ∃ (d : Domain) (e : GoError),
              fd.ComputeDomain HashTreeRoot domainType = .ok (d, none) ∧
              ComputeSigningRootUInt64 epoch d = .error e ∧
              err = wrapError "failed to compute signing root" e)) := by
  cases hh : HashTreeRoot fd with
  | error herr =>
    have hcd := ComputeDomain_error HashTreeRoot fd domainType herr hh
    have hrs := ComputeRandaoSigningRoot_of_hash_error HashTreeRoot
      ComputeSigningRootUInt64 fd domainType epoch herr hh
    refine ⟨⟨_, hcd⟩, ?_, ⟨_, hrs⟩, ?_⟩
    · intro d err
      rw [hcd]
      constructor
      · intro h
        cases h
        exact ⟨rfl, rfl⟩
      · rintro ⟨hd, he⟩
        cases he
        rw [hd]
    · intro r err
      rw [hrs]
      constructor
      · intro h
        cases h
        exact ⟨rfl, Or.inl rfl⟩
      · rintro ⟨hr, he | ⟨d, e, hd, -, -⟩⟩
        · cases he
          rw [hr]
        · rw [hcd] at hd
          cases hd
  | ok root =>
    obtain ⟨d, hd, -, -⟩ :=
      ComputeDomain_ok HashTreeRoot fd domainType root hh
    have hrs := ComputeRandaoSigningRoot_of_domain HashTreeRoot
      ComputeSigningRootUInt64 fd domainType epoch d hd
    refine ⟨⟨_, hd⟩, ?_, ?_, ?_⟩
    · intro d2 err
      rw [hd]
      constructor
      · intro h
        cases h
      · rintro ⟨-, he⟩
        cases he
    · rw [hrs]
      cases ComputeSigningRootUInt64 epoch d with
      | error e => exact ⟨_, rfl⟩
      | ok sr => exact ⟨_, rfl⟩
    · intro r err
      rw [hrs]
      cases hs : ComputeSigningRootUInt64 epoch d with
      | error e =>
        constructor
        · intro h
          cases h
          exact ⟨rfl, Or.inr ⟨d, e, hd, hs, rfl⟩⟩
        · rintro ⟨hr, he | ⟨d2, e2, hd2, hs2, herr⟩⟩
          · cases he
          · rw [hd] at hd2
            cases hd2
            rw [hs] at hs2
            cases hs2
            rw [hr, herr]
      | ok sr =>
        constructor
        · intro h
          cases h
        · rintro ⟨-, he | ⟨d2, e2, hd2, hs2, -⟩⟩
          · cases he
          · rw [hd] at hd2
            cases hd2
            rw [hs] at hs2
            cases hs2

/-- Instance of C22: with a failing hash both functions return the zero value
and the hashing error; with a failing signing-root primitive
`ComputeRandaoSigningRoot` returns the zero root and the wrapped error. -/
theorem hashing_failures_surfaced_witness :
    sampleForkData.ComputeDomain failingHashTreeRoot sampleDomainType =
      .ok (zeroBytes 32, some ⟨"hash tree root failed"⟩) ∧
    sampleForkData.ComputeRandaoSigningRoot failingHashTreeRoot
        sampleComputeSigningRoot sampleDomainType 2 =
      .ok (zeroBytes 32, some ⟨"hash tree root failed"⟩) ∧
    sampleForkData.ComputeRandaoSigningRoot sampleHashTreeRoot
        failingComputeSigningRoot sampleDomainType 2 =
      .ok (zeroBytes 32,
        some ⟨"failed to compute signing root: merkleization failed"⟩) := by
  have h1 := hashing_failures_surfaced failingHashTreeRoot
    sampleComputeSigningRoot sampleForkData sampleDomainType 2
  have h2 := hashing_failures_surfaced sampleHashTreeRoot
    failingComputeSigningRoot sampleForkData sampleDomainType 2
  obtain ⟨d, hd, -, -⟩ := ComputeDomain_ok sampleHashTreeRoot sampleForkData
    sampleDomainType (fun i => if i = 0 then 1 else 0xbb) rfl
  exact ⟨(h1.2.1 _ _).mpr ⟨rfl, rfl⟩,
    (h1.2.2.2 _ _).mpr ⟨rfl, Or.inl rfl⟩,
    (h2.2.2.2 _ _).mpr ⟨rfl, Or.inr ⟨d, _, hd, rfl, rfl⟩⟩⟩

/-! ## Claims about the state root of an outgoing block -/

/-- C23: `computeAndSetStateRoot` sets the state-root field of the block only
after a successful root computation. If `computeStateRoot` fails, the same
error is returned and the block is left as it was; if it succeeds with root
`r`, no error is returned and the block is the old one with its state-root
field equal to `r`. -/
theorem computeAndSetStateRoot_sets_on_success {σ : Type} (s : Service σ)
    (st : σ) (blk : BeaconBlock) :
    (∀ (st' : σ) (r : Root) (err : GoError),
      s.computeStateRoot st blk = (st', (r, some err)) →
      (s.computeAndSetStateRoot st blk).err = some err ∧
        (s.computeAndSetStateRoot st blk).blk = blk) ∧
    (∀ (st' : σ) (r : Root),
      s.computeStateRoot st blk = (st', (r, none)) →
      (s.computeAndSetStateRoot st blk).err = none ∧
        (s.computeAndSetStateRoot st blk).blk.StateRoot = r ∧
        (s.computeAndSetStateRoot st blk).blk =
          { blk with StateRoot := r }) := by
  constructor
  · intro st' r err h
    unfold Service.computeAndSetStateRoot
    rw [h]
    exact ⟨rfl, rfl⟩
  · intro st' r h
    unfold Service.computeAndSetStateRoot
    rw [h]
    exact ⟨rfl, rfl, rfl⟩

/-- Instance of C23: with the failing sample service the block keeps its zero
state root and the error comes back; with the sample service the state root
of the block becomes the root of the state after the transition. -/
theorem computeAndSetStateRoot_sets_on_success_witness :
    ((sampleFailingService.computeAndSetStateRoot 5 sampleBlock).err =
        some ⟨"transition failed"⟩ ∧
      (sampleFailingService.computeAndSetStateRoot 5 sampleBlock).blk =
        sampleBlock) ∧
    ((sampleService.computeAndSetStateRoot 5 sampleBlock).err = none ∧
      (sampleService.computeAndSetStateRoot 5 sampleBlock).blk.StateRoot =
        (sampleService.HashTreeRoot 75).1) :=
  ⟨(computeAndSetStateRoot_sets_on_success sampleFailingService 5
      sampleBlock).1 6 (zeroBytes 32) ⟨"transition failed"⟩ rfl,
    ⟨((computeAndSetStateRoot_sets_on_success sampleService 5
        sampleBlock).2 75 (sampleService.HashTreeRoot 75).1 rfl).1,
      ((computeAndSetStateRoot_sets_on_success sampleService 5
        sampleBlock).2 75 (sampleService.HashTreeRoot 75).1 rfl).2.1⟩⟩

/-- C24: `computeStateRoot` runs the transition under a context in which
payload verification, RANDAO validation and result validation are skipped,
and depends on the state processor only through that run. If the transition
fails it returns the all-zero root with the same error, whatever the hashing
of the state would give; otherwise it returns what hashing the state left by
the transition returns. -/
theorem computeStateRoot_spec {σ : Type} (s : Service σ) (st : σ)
    (blk : BeaconBlock) :
    (stateRootContext.SkipPayloadVerification = true ∧
      stateRootContext.SkipValidateRandao = true ∧
      stateRootContext.SkipValidateResult = true) ∧
    (∀ T : TransitionContext → σ → BeaconBlock → σ × Option GoError,
      T stateRootContext st blk = s.Transition stateRootContext st blk →
      ({ s with Transition := T } : Service σ).computeStateRoot st blk =
        s.computeStateRoot st blk) ∧
    (∀ (st' : σ) (err : GoError),
      s.Transition stateRootContext st blk = (st', some err) →
      s.computeStateRoot st blk = (st', (zeroBytes 32, some err)) ∧
      ∀ H : σ → Root × Option GoError,
        ({ s with HashTreeRoot := H } : Service σ).computeStateRoot st blk =
          (st', (zeroBytes 32, some err))) ∧
    (∀ st' : σ, s.Transition stateRootContext st blk = (st', none) →
      s.computeStateRoot st blk = (st', s.HashTreeRoot st')) := by
  refine ⟨⟨rfl, rfl, rfl⟩, ?_, ?_, ?_⟩
  · intro T hT
    unfold Service.computeStateRoot
    simp only [hT]
  · intro st' err h
    constructor
    · unfold Service.computeStateRoot
      rw [h]
    · intro H
      unfold Service.computeStateRoot
      simp only [h]
  · intro st' h
    unfold Service.computeStateRoot
    rw [h]

/-- Instance of C24: the failing sample service yields the zero root and its
error; the sample service, whose transition succeeds only under the skipping
context, yields the root of the state `5 + 70`. -/
theorem computeStateRoot_spec_witness :
    sampleFailingService.computeStateRoot 5 sampleBlock =
      (6, (zeroBytes 32, some ⟨"transition failed"⟩)) ∧
    sampleService.computeStateRoot 5 sampleBlock =
      (75, sampleService.HashTreeRoot 75) :=
  ⟨((computeStateRoot_spec sampleFailingService 5 sampleBlock).2.2.1 6
      ⟨"transition failed"⟩ rfl).1,
    (computeStateRoot_spec sampleService 5 sampleBlock).2.2.2 75 rfl⟩

/-! ## Claims about the light store -/

/-- C25: on the light store each of the four write operations panics with the
same value `writesNotSupported` for every argument, returns no value, and
leaves the store as it was. -/
theorem light_store_writes_not_supported (kv : KVStore) (index : Nat)
    (deposits : List Deposit) (numDequeue : Nat) :
    kv.SetNextWithdrawalIndex index = (kv, .error .writesNotSupported) ∧
    kv.SetNextWithdrawalValidatorIndex index =
      (kv, .error .writesNotSupported) ∧
    kv.EnqueueDeposits deposits = (kv, .error .writesNotSupported) ∧
    kv.DequeueDeposits numDequeue = (kv, .error .writesNotSupported) ∧
    (∀ r : Option GoError, (kv.SetNextWithdrawalIndex index).2 ≠ .ok r) ∧
    (∀ r : Option GoError,
      (kv.SetNextWithdrawalValidatorIndex index).2 ≠ .ok r) ∧
    (∀ r : Option GoError, (kv.EnqueueDeposits deposits).2 ≠ .ok r) ∧
    (∀ r : List Deposit × Option GoError,
      (kv.DequeueDeposits numDequeue).2 ≠ .ok r) := by
  refine ⟨rfl, rfl, rfl, rfl, ?_, ?_, ?_, ?_⟩ <;>
  · intro r h
    cases h

/-- C26: peeking is idempotent. `ExpectedDeposits n` leaves the store, and so
its deposit queue, as it was, a second call with the same `n` returns the same
sequence, and that sequence is the first `n` pending deposits, without
error. -/
theorem ExpectedDeposits_idempotent (kv : KVStore) (n : Nat) :
    (kv.ExpectedDeposits n).1 = kv ∧
    (kv.ExpectedDeposits n).1.depositQueue = kv.depositQueue ∧
    ((kv.ExpectedDeposits n).1.ExpectedDeposits n).2 =
      (kv.ExpectedDeposits n).2 ∧
    ((kv.ExpectedDeposits n).1.ExpectedDeposits n).1 = kv ∧
    (kv.ExpectedDeposits n).2 = (kv.depositQueue.pending.take n, none) ∧
    (kv.ExpectedDeposits n).2.1.length ≤ n :=
  ⟨rfl, rfl, rfl, rfl, rfl, List.length_take_le n kv.depositQueue.pending⟩

/-- The peek of two deposits on the sample store, twice: the deposits indexed
4 and 5 both times, and three deposits still pending. -/
theorem test_ExpectedDeposits :
    ((sampleStore.ExpectedDeposits 2).2.1.map Deposit.Index = [4, 5]) ∧
    (((sampleStore.ExpectedDeposits 2).1.ExpectedDeposits 2).2.1.map
      Deposit.Index = [4, 5]) ∧
    ((sampleStore.ExpectedDeposits 2).1.depositQueue.pending.length = 3) ∧
    ((sampleStore.ExpectedDeposits 7).2.1.map Deposit.Index = [4, 5, 6]) := by
  decide

/-! ## Derived properties of domains and of fresh validators -/

/-- The bytes of the domain `ComputeDomain` returns when hashing succeeds. -/
theorem ComputeDomain_bytes (HashTreeRoot : ForkData → Except GoError Root)
    (fd : ForkData) (domainType : DomainType) (root : Root)
    (h : HashTreeRoot fd = .ok root) :
    ∃ d : Domain,
      fd.ComputeDomain HashTreeRoot domainType = .ok (d, none) ∧
      (∀ i : Fin 4, d (Fin.castLE (by decide) i) = domainType i) ∧
      (∀ i : Fin 32, ∀ h4 : 4 ≤ i.val,
        d i = root ⟨i.val - 4, by omega⟩) := by
  obtain ⟨d, hd, -, hget⟩ :=
    ComputeDomain_ok HashTreeRoot fd domainType root h
  refine ⟨d, hd, ?_, ?_⟩
  · intro i
    rw [hget, List.get_eq_getElem]
    simp only [Fin.coe_castLE]
    rw [List.getElem_append_left (by rw [sliceOf_length]; exact i.isLt),
      sliceOf_getElem]
  · intro i h4
    rw [hget, List.get_eq_getElem]
    rw [List.getElem_append_right (by rw [sliceOf_length]; exact h4),
      List.getElem_take, sliceOf_getElem]
    congr 1

/-- An interval of epochs that starts and ends at the same epoch is empty. -/
theorem empty_window (F e : Nat) :
    (decide (F ≤ e) && decide (e < F)) = false := by
  by_cases h : F ≤ e
  · have h2 : ¬ e < F := Nat.not_lt.mpr h
    simp [h, h2]
  · simp [h]

/-- The rounded-down amount is the increment times the quotient. -/
theorem sub_mod_eq_mul_div (a i : Nat) : a - a % i = i * (a / i) := by
  have h := Nat.div_add_mod a i
  omega

/-- Rounding down to the increment is monotone in the amount. -/
theorem sub_mod_mono (a b i : Nat) (h : a ≤ b) : a - a % i ≤ b - b % i := by
  rw [sub_mod_eq_mul_div, sub_mod_eq_mul_div]
  exact Nat.mul_le_mul_left i (Nat.div_le_div_right h)

/-- C27: domain separation. When hashing the fork data succeeds, two distinct
domain types give two distinct domains, and the two domains agree on bytes
4..31. -/
theorem ComputeDomain_separates
    (HashTreeRoot : ForkData → Except GoError Root) (fd : ForkData)
    (domainType1 domainType2 : DomainType) (root : Root)
    (h : HashTreeRoot fd = .ok root) (hne : domainType1 ≠ domainType2) :
    ∃ d1 d2 : Domain,
      fd.ComputeDomain HashTreeRoot domainType1 = .ok (d1, none) ∧
      fd.ComputeDomain HashTreeRoot domainType2 = .ok (d2, none) ∧
      d1 ≠ d2 ∧
      ∀ i : Fin 32, 4 ≤ i.val → d1 i = d2 i := by
  obtain ⟨d1, hd1, hp1, hr1⟩ :=
    ComputeDomain_bytes HashTreeRoot fd domainType1 root h
  obtain ⟨d2, hd2, hp2, hr2⟩ :=
    ComputeDomain_bytes HashTreeRoot fd domainType2 root h
  refine ⟨d1, d2, hd1, hd2, ?_, ?_⟩
  · intro heq
    apply hne
    funext i
    rw [← hp1 i, ← hp2 i, heq]
  · intro i h4
    rw [hr1 i h4, hr2 i h4]

/-- Instance of C27 on the sample fork data with the domain types
`07 00 00 00` and `01 00 00 00`. -/
theorem ComputeDomain_separates_witness :
    sampleDomainType ≠ sampleOtherDomainType ∧
    ∃ d1 d2 : Domain,
      sampleForkData.ComputeDomain sampleHashTreeRoot sampleDomainType =
        .ok (d1, none) ∧
      sampleForkData.ComputeDomain sampleHashTreeRoot sampleOtherDomainType =
        .ok (d2, none) ∧
      d1 ≠ d2 ∧
      ∀ i : Fin 32, 4 ≤ i.val → d1 i = d2 i :=
  ⟨by decide,
    ComputeDomain_separates sampleHashTreeRoot sampleForkData sampleDomainType
      sampleOtherDomainType (fun i => if i = 0 then 1 else 0xbb) rfl
      (by decide)⟩

/-- C28: a validator freshly created by `NewValidatorFromDeposit`, for an
increment greater than zero, is active at no epoch and slashable at no epoch,
the far-future sentinel included. -/
theorem fresh_validator_inactive (pubkey : BLSPubkey)
    (withdrawalCredentials : WithdrawalCredentials)
    (amount effectiveBalanceIncrement maxEffectiveBalance : Gwei)
    (hinc : 0 < effectiveBalanceIncrement) :
    ∃ v : Validator,
      NewValidatorFromDeposit pubkey withdrawalCredentials amount
          effectiveBalanceIncrement maxEffectiveBalance = .ok v ∧
      (∀ e : Epoch, v.IsActive e = false ∧ v.IsSlashable e = false) ∧
      v.IsActive FarFutureEpoch = false ∧
      v.IsSlashable FarFutureEpoch = false := by
  have key : ∀ e : Epoch,
      Validator.IsActive
          { Pubkey := pubkey
            WithdrawalCredentials := withdrawalCredentials
            EffectiveBalance :=
              min (u64Sub amount (amount % effectiveBalanceIncrement))
                maxEffectiveBalance
            Slashed := false
            ActivationEligibilityEpoch := FarFutureEpoch
            ActivationEpoch := FarFutureEpoch
            ExitEpoch := FarFutureEpoch
            WithdrawableEpoch := FarFutureEpoch } e = false ∧
        Validator.IsSlashable
          { Pubkey := pubkey
            WithdrawalCredentials := withdrawalCredentials
            EffectiveBalance :=
              min (u64Sub amount (amount % effectiveBalanceIncrement))
                maxEffectiveBalance
            Slashed := false
            ActivationEligibilityEpoch := FarFutureEpoch
            ActivationEpoch := FarFutureEpoch
            ExitEpoch := FarFutureEpoch
            WithdrawableEpoch := FarFutureEpoch } e = false := by
    intro e
    constructor
    · exact empty_window FarFutureEpoch e
    · show (!false && decide (FarFutureEpoch ≤ e) &&
        decide (e < FarFutureEpoch)) = false
      rw [Bool.not_false, Bool.true_and]
      exact empty_window FarFutureEpoch e
  exact ⟨_, NewValidatorFromDeposit_ok pubkey withdrawalCredentials amount
    effectiveBalanceIncrement maxEffectiveBalance hinc, key,
    (key FarFutureEpoch).1, (key FarFutureEpoch).2⟩

/-- Instance of C28 at the test vector "normal case". -/
theorem fresh_validator_inactive_witness :
    0 < 1000000000 ∧
    ∃ v : Validator,
      NewValidatorFromDeposit samplePubkey sampleEth1Credentials 32000000000
          1000000000 32000000000 = .ok v ∧
      (∀ e : Epoch, v.IsActive e = false ∧ v.IsSlashable e = false) ∧
      v.IsActive FarFutureEpoch = false ∧
      v.IsSlashable FarFutureEpoch = false :=
  ⟨by decide,
    fresh_validator_inactive samplePubkey sampleEth1Credentials 32000000000
      1000000000 32000000000 (by decide)⟩

/-- C29: for a `uint64` amount and an increment greater than zero, the
validator created with maximum `m` is eligible for the activation queue at `m`
exactly when `amount - amount mod increment ≥ m`. -/
theorem fresh_validator_queue_eligible (pubkey : BLSPubkey)
    (withdrawalCredentials : WithdrawalCredentials)
    (amount effectiveBalanceIncrement m : Gwei)
    (hamount : IsU64 amount) (hinc : 0 < effectiveBalanceIncrement) :
    ∃ v : Validator,
      NewValidatorFromDeposit pubkey withdrawalCredentials amount
          effectiveBalanceIncrement m = .ok v ∧
      (v.IsEligibleForActivationQueue m = true ↔
        m ≤ amount - amount % effectiveBalanceIncrement) := by
  refine ⟨_, NewValidatorFromDeposit_ok pubkey withdrawalCredentials amount
    effectiveBalanceIncrement m hinc, ?_⟩
  show (decide (FarFutureEpoch = FarFutureEpoch) &&
      decide (min (u64Sub amount (amount % effectiveBalanceIncrement)) m =
        m)) = true ↔ _
  rw [u64Sub_mod_eq hamount, Bool.and_eq_true, decide_eq_true_iff,
    decide_eq_true_iff]
  constructor
  · rintro ⟨-, h⟩
    rw [← h]
    exact Nat.min_le_left _ _
  · intro h
    exact ⟨rfl, Nat.min_eq_right h⟩

/-- Instance of C29: a deposit of `32.5e9` with increment `1e9` is eligible at
the maximum `32e9`, since `32e9 ≤ 32e9`. -/
theorem fresh_validator_queue_eligible_witness :
    IsU64 32500000000 ∧ 0 < 1000000000 ∧
    ∃ v : Validator,
      NewValidatorFromDeposit samplePubkey sampleEth1Credentials 32500000000
          1000000000 32000000000 = .ok v ∧
      (v.IsEligibleForActivationQueue 32000000000 = true ↔
        32000000000 ≤ 32500000000 - 32500000000 % 1000000000) :=
  ⟨by decide, by decide,
    fresh_validator_queue_eligible samplePubkey sampleEth1Credentials
      32500000000 1000000000 32000000000 (by decide) (by decide)⟩

/-- C30: for `uint64` amounts and an increment greater than zero, the
effective balance never exceeds the deposited amount, the `uint64`
subtraction `amount - amount mod increment` does not wrap around, and the
effective balance is monotonically non-decreasing in the amount. -/
theorem effectiveBalance_bounded_monotone (pubkey : BLSPubkey)
    (withdrawalCredentials : WithdrawalCredentials)
    (amount1 amount2 effectiveBalanceIncrement maxEffectiveBalance : Gwei)
    (h1 : IsU64 amount1) (h2 : IsU64 amount2)
    (hinc : 0 < effectiveBalanceIncrement) :
    ∃ v1 v2 : Validator,
      NewValidatorFromDeposit pubkey withdrawalCredentials amount1
          effectiveBalanceIncrement maxEffectiveBalance = .ok v1 ∧
      NewValidatorFromDeposit pubkey withdrawalCredentials amount2
          effectiveBalanceIncrement maxEffectiveBalance = .ok v2 ∧
      v1.EffectiveBalance ≤ amount1 ∧
      amount1 % effectiveBalanceIncrement ≤ amount1 ∧
      u64Sub amount1 (amount1 % effectiveBalanceIncrement) =
        amount1 - amount1 % effectiveBalanceIncrement ∧
      (amount1 ≤ amount2 → v1.EffectiveBalance ≤ v2.EffectiveBalance) := by
  refine ⟨_, _, NewValidatorFromDeposit_ok pubkey withdrawalCredentials
    amount1 effectiveBalanceIncrement maxEffectiveBalance hinc,
    NewValidatorFromDeposit_ok pubkey withdrawalCredentials amount2
    effectiveBalanceIncrement maxEffectiveBalance hinc, ?_,
    Nat.mod_le _ _, u64Sub_mod_eq h1, ?_⟩
  · show min (u64Sub amount1 (amount1 % effectiveBalanceIncrement))
        maxEffectiveBalance ≤ amount1
    rw [u64Sub_mod_eq h1]
    exact Nat.le_trans (Nat.min_le_left _ _) (Nat.sub_le _ _)
  · intro hle
    show min (u64Sub amount1 (amount1 % effectiveBalanceIncrement))
        maxEffectiveBalance ≤
      min (u64Sub amount2 (amount2 % effectiveBalanceIncrement))
        maxEffectiveBalance
    rw [u64Sub_mod_eq h1, u64Sub_mod_eq h2]
    exact min_le_min (sub_mod_mono amount1 amount2 effectiveBalanceIncrement
      hle) (Nat.le_refl _)

/-- Instance of C30 at the amounts `31.5e9 ≤ 32.5e9`, increment `1e9` and
maximum `32e9`. -/
theorem effectiveBalance_bounded_monotone_witness :
    IsU64 31500000000 ∧ IsU64 32500000000 ∧ 0 < 1000000000 ∧
    31500000000 ≤ 32500000000 ∧
    ∃ v1 v2 : Validator,
      NewValidatorFromDeposit samplePubkey sampleEth1Credentials 31500000000
          1000000000 32000000000 = .ok v1 ∧
      NewValidatorFromDeposit samplePubkey sampleEth1Credentials 32500000000
          1000000000 32000000000 = .ok v2 ∧
      v1.EffectiveBalance ≤ 31500000000 ∧
      v1.EffectiveBalance ≤ v2.EffectiveBalance := by
  obtain ⟨v1, v2, hv1, hv2, hle, -, -, hmono⟩ :=
    effectiveBalance_bounded_monotone samplePubkey sampleEth1Credentials
      31500000000 32500000000 1000000000 32000000000 (by decide) (by decide)
      (by decide)
  exact ⟨by decide, by decide, by decide, by decide, v1, v2, hv1, hv2, hle,
    hmono (by decide)⟩

end BeaconKit
